import Mathlib

/-!
Shallow embedding of the forge backend (image-to-code generation and
deployment pipeline).  Strings carried by requests are modelled as
`List Char`; machine numbers as `Nat`/`Int`; the one JavaScript
floating-point computation (the base64 size estimate, exact in double
precision at these magnitudes) as the equivalent exact integer
comparison.

Sources embedded here:
- `filterThinkingTags`, `validateImageDataURL` and the generate route
  handler from `src/backend/routers/generate.ts` (the revision that
  filters thinking tags);
- `withAuth` and `withRateLimit` from the Next.js middleware
  (`src/unnamed/part_001`);
- the deploy route handler and the project scaffolding inside
  `createVercelDeployment` from `src/backend/routers/deploy.ts` (the
  revision that adds the shadcn/ui components).
-/

namespace Forge

/-- Character class of the JavaScript regex `\s` restricted to the
characters that can actually occur in this code path (ASCII whitespace,
NBSP); also the class used by `String.prototype.trim`. -/
def isJsWS (c : Char) : Bool :=
  c == ' ' || c == '\t' || c == '\n' || c == '\r' ||
  c == '\x0b' || c == '\x0c' || c == ' '

/-- Case-insensitive prefix test: does `s` start with pattern `pat`
(where `pat` is given in lower case)?  Models the `i` flag of the
thinking-tag regexes. -/
def ciStarts : List Char → List Char → Bool
  | [], _ => true
  | _ :: _, [] => false
  | p :: ps, c :: cs => (c.toLower == p) && ciStarts ps cs

/-- Case-sensitive prefix test (JavaScript `String.prototype.startsWith`). -/
def startsWithL : List Char → List Char → Bool
  | [], _ => true
  | _ :: _, [] => false
  | p :: ps, c :: cs => (c == p) && startsWithL ps cs

/-- The opening thinking-tag head `<thinking` (lower-cased pattern). -/
def openThinking : List Char := "<thinking".toList

/-- The closing thinking tag `</thinking>` (lower-cased pattern). -/
def closeThinking : List Char := "</thinking>".toList

/-- Consume the `[^>]*>` part of the opening tag regex
`<thinking[^>]*>`: skip characters up to and including the first `>`;
`none` if no `>` remains (the regex fails). -/
def consumeToGt : List Char → Option (List Char)
  | [] => none
  | c :: rest => if c == '>' then some rest else consumeToGt rest

/-- Try to match the opening tag `<thinking[^>]*>` (case-insensitive) at
the head of `s`; on success return the remainder after the tag. -/
def openTagTail (s : List Char) : Option (List Char) :=
  if ciStarts openThinking s then consumeToGt (s.drop 9) else none

/-- Scan for the first (case-insensitive) occurrence of `</thinking>`
and return the remainder after it, as the lazy `[\s\S]*?<\/thinking>`
does; `none` when there is no closing tag. -/
def dropToClose : List Char → Option (List Char)
  | [] => none
  | c :: rest =>
    if ciStarts closeThinking (c :: rest) then some ((c :: rest).drop 11)
    else dropToClose rest

/-- One global pass of
`text.replace(/<thinking[^>]*>[\s\S]*?<\/thinking>/gi, '')`.
The fuel argument only bounds recursion; `fuel = s.length` always
suffices because every step consumes at least one character. -/
def removeSpansF : Nat → List Char → List Char
  | 0, s => s
  | _ + 1, [] => []
  | fuel + 1, c :: rest =>
    match openTagTail (c :: rest) with
    | some afterOpen =>
      match dropToClose afterOpen with
      | some afterClose => removeSpansF fuel afterClose
      | none => c :: removeSpansF fuel rest
    | none => c :: removeSpansF fuel rest

/-- Remove every well-formed `<thinking ...>...</thinking>` span. -/
def removeSpans (s : List Char) : List Char := removeSpansF s.length s

/-- Step `cleaned.replace(/^[\s\S]*?<\/thinking>/gi, '')`: the `^` anchor
(no `m` flag) fires at most once, dropping everything up to and
including the first unmatched closing tag. -/
def dropPreamble (s : List Char) : List Char :=
  match dropToClose s with
  | some rest => rest
  | none => s

/-- One global pass of `cleaned.replace(/<thinking[^>]*>/gi, '')`.
As with a JavaScript global replace, scanning resumes after each removed
match, so text joined across a removal is not rescanned. -/
def removeOpenTagsF : Nat → List Char → List Char
  | 0, s => s
  | _ + 1, [] => []
  | fuel + 1, c :: rest =>
    match openTagTail (c :: rest) with
    | some afterTag => removeOpenTagsF fuel afterTag
    | none => c :: removeOpenTagsF fuel rest

/-- Remove every remaining opening thinking tag. -/
def removeOpenTags (s : List Char) : List Char := removeOpenTagsF s.length s

/-- Split a text into its `\n`-separated lines (the line structure seen
by the `m` flag of the fence regexes). -/
def splitLines : List Char → List (List Char)
  | [] => [[]]
  | c :: rest =>
    if c == '\n' then [] :: splitLines rest
    else
      match splitLines rest with
      | [] => [[c]]
      | l :: ls => (c :: l) :: ls

/-- Re-join lines with `\n`, the inverse of `splitLines`. -/
def joinLines : List (List Char) → List Char
  | [] => []
  | [l] => l
  | l :: ls => l ++ '\n' :: joinLines ls

/-- Line pattern `/^\s*```[a-zA-Z]*\s*$/` (opening fence, optionally
with a language tag): after the leading whitespace the line starts with
three backticks followed only by letters and then whitespace.  (If a
fourth backtick follows, `[a-zA-Z]*\s*$` cannot match it, and the
trailing `isEmpty` fails likewise.) -/
def fenceOpenLine (l : List Char) : Bool :=
  ((l.dropWhile isJsWS).take 3 == ['`', '`', '`']) &&
    ((((l.dropWhile isJsWS).drop 3).dropWhile Char.isAlpha).dropWhile isJsWS).isEmpty

/-- Line pattern `/^\s*```\s*$/` (closing fence). -/
def fenceCloseLine (l : List Char) : Bool :=
  ((l.dropWhile isJsWS).take 3 == ['`', '`', '`']) &&
    (((l.dropWhile isJsWS).drop 3).dropWhile isJsWS).isEmpty

/-- Line pattern `/^\s*`{3,}.*$/` (any remaining run of three or more
backticks after leading whitespace; `.*$` accepts the rest). -/
def fenceTicksLine (l : List Char) : Bool :=
  (l.dropWhile isJsWS).take 3 == ['`', '`', '`']

/-- One `replace(pattern, '')` pass with the `gm` flags over a line
pattern: every matching line is replaced by the empty line (the
newline separators are untouched). -/
def fencePass (p : List Char → Bool) (s : List Char) : List Char :=
  joinLines ((splitLines s).map (fun l => if p l then [] else l))

/-- JavaScript `String.prototype.trim`. -/
def trimWS (s : List Char) : List Char :=
  ((s.dropWhile isJsWS).reverse.dropWhile isJsWS).reverse

/-- The Output Sanitizer `filterThinkingTags` from
`src/backend/routers/generate.ts`: remove well-formed thinking spans,
then a leading unmatched-closing-tag preamble, then stray opening tags,
then the three fence-line replacements, then trim. -/
def filterThinkingTags (s : List Char) : List Char :=
  trimWS (fencePass fenceTicksLine (fencePass fenceCloseLine (fencePass fenceOpenLine
    (removeOpenTags (dropPreamble (removeSpans s))))))

/-- Case-insensitive occurrence test: does the (lower-cased) pattern
occur anywhere in `s`? -/
def ciOccurs (pat : List Char) : List Char → Bool
  | [] => ciStarts pat []
  | c :: rest => ciStarts pat (c :: rest) || ciOccurs pat rest

/-- A line matching any of the three fence-delimiter patterns. -/
def fenceAnyLine (l : List Char) : Bool :=
  fenceOpenLine l || fenceCloseLine l || fenceTicksLine l

/-- Every line of `s` is free of fence delimiters. -/
def linesOK (s : List Char) : Prop :=
  ∀ l ∈ splitLines s, fenceAnyLine l = false

/-- Append a character to the last line of a non-empty line list. -/
def appendToLast (c : Char) : List (List Char) → List (List Char)
  | [] => [[c]]
  | [l] => [l ++ [c]]
  | l :: ls => l :: appendToLast c ls

/-! ### JavaScript request values -/

/-- A JavaScript value as it can appear in a parsed JSON request body
(only the shapes the validators distinguish). -/
inductive JSValue where
  | vUndef
  | vNull
  | vBool (b : Bool)
  | vNum (n : Int)
  | vStr (s : List Char)
deriving DecidableEq

/-- JavaScript truthiness for the modelled values (`undefined`, `null`,
`false`, `0` and `""` are falsy). -/
def JSValue.truthy : JSValue → Bool
  | .vUndef => false
  | .vNull => false
  | .vBool b => b
  | .vNum n => n != 0
  | .vStr s => !s.isEmpty

/-- JavaScript `typeof v === 'string'`. -/
def JSValue.isString : JSValue → Bool
  | .vStr _ => true
  | _ => false

/-! ### Identity Verifier (`withAuth`, src/unnamed/part_001) -/

/-- The claims set of a decoded Canva user JWT (the fields `withAuth`
reads; `exp = none` models an absent expiry claim). -/
structure CanvaUserJWT where
  sub : List Char
  aud : List Char
  iss : List Char
  exp : Option Nat
  iat : Nat
deriving DecidableEq

/-- Result of `jwt.verify`: a decoded claims set, or one of the two
error classes the middleware distinguishes
(`JsonWebTokenError` / `TokenExpiredError`). -/
inductive VerifyOutcome where
  | ok (claims : CanvaUserJWT)
  | jwtError
  | expiredError
deriving DecidableEq

/-- Observable outcome of the middleware: an error response, or the
protected handler invoked with the decoded user attached. -/
inductive AuthResult where
  | respond (status : Nat) (error : String)
  | handled (user : CanvaUserJWT)
deriving DecidableEq

/-- The fixed trusted issuer string. -/
def trustedIssuer : List Char := "canva.com".toList

/-- The `withAuth` middleware.  `verify` abstracts `jwt.verify` over the
token and the configured secret; `now` is `Math.floor(Date.now()/1000)`. -/
def withAuth (authHeader : Option (List Char)) (jwtSecret : Option (List Char))
    (verify : List Char → List Char → VerifyOutcome) (now : Nat) : AuthResult :=
  match authHeader with
  | none => .respond 401 "Missing or invalid authorization header. Expected: Bearer <token>"
  | some h =>
    if !(startsWithL ("Bearer ").toList h) then
      .respond 401 "Missing or invalid authorization header. Expected: Bearer <token>"
    else
      match jwtSecret with
      | none => .respond 500 "Server configuration error"
      | some secret =>
        if secret.isEmpty then .respond 500 "Server configuration error"
        else
          match verify (h.drop 7) secret with
          | .jwtError => .respond 401 "Invalid JWT token"
          | .expiredError => .respond 401 "JWT token has expired"
          | .ok d =>
            if d.sub.isEmpty || d.aud.isEmpty || d.iss.isEmpty then
              .respond 401 "Invalid JWT: missing required claims"
            else if !(d.iss == trustedIssuer) then
              .respond 401 "Invalid JWT: invalid issuer"
            else if (match d.exp with
                     | some e => (e != 0) && decide (e < now)
                     | none => false) then
              .respond 401 "JWT token has expired"
            else
              .handled d

/-! ### Rate Limiter (`withRateLimit`, src/unnamed/part_001) -/

/-- One entry of the `requestCounts` map. -/
structure RateEntry where
  count : Nat
  resetTime : Nat
deriving DecidableEq

/-- The process-wide `requestCounts` map, keyed by client id. -/
def RLState : Type := List Char → Option RateEntry

/-- The update `requestCounts.set clientId entry`. -/
def updateState (st : RLState) (clientId : List Char) (entry : RateEntry) : RLState :=
  fun k => if k = clientId then some entry else st k

/-- Whether the wrapped handler runs (`admitted`) or the request is
answered with 429 (`denied`). -/
inductive RLDecision where
  | admitted
  | denied
deriving DecidableEq

/-- Default `maxRequests` parameter of `withRateLimit`. -/
def defaultMaxRequests : Nat := 10

/-- Default `windowMs` parameter of `withRateLimit` (one minute). -/
def defaultWindowMs : Nat := 60000

/-- One request through `withRateLimit`: reset-or-initialise when no
entry exists or the window elapsed, otherwise increment and deny once
the count exceeds the maximum.  The incremented count is stored even on
denial, exactly as the mutation `clientData.count++` does. -/
def rateLimitStep (maxRequests windowMs : Nat) (st : RLState) (clientId : List Char)
    (now : Nat) : RLDecision × RLState :=
  match st clientId with
  | none => (.admitted, updateState st clientId ⟨1, now + windowMs⟩)
  | some clientData =>
    if now > clientData.resetTime then
      (.admitted, updateState st clientId ⟨1, now + windowMs⟩)
    else
      if clientData.count + 1 > maxRequests then
        (.denied, updateState st clientId ⟨clientData.count + 1, clientData.resetTime⟩)
      else
        (.admitted, updateState st clientId ⟨clientData.count + 1, clientData.resetTime⟩)

/-- A sequence of requests `(clientId, now)` through the limiter,
returning the decisions in order and the final map. -/
def rateLimitRun (maxRequests windowMs : Nat) (st : RLState) :
    List (List Char × Nat) → List RLDecision × RLState
  | [] => ([], st)
  | (k, t) :: reqs =>
    let step := rateLimitStep maxRequests windowMs st k t
    let rest := rateLimitRun maxRequests windowMs step.2 reqs
    (step.1 :: rest.1, rest.2)

/-! ### Payload Validator and generate handler
(`src/backend/routers/generate.ts`) -/

/-- The required data-URL head `data:image/`. -/
def dataImageMark : List Char := "data:image/".toList

/-- The base64 marker `base64,`. -/
def b64Marker : List Char := "base64,".toList

/-- Scan for the first occurrence of `base64,` and return the remainder
after it (`none` when the marker is absent). -/
def dropAfterMarker : List Char → Option (List Char)
  | [] => none
  | c :: rest =>
    if startsWithL b64Marker (c :: rest) then some ((c :: rest).drop 7)
    else dropAfterMarker rest

/-- Take characters up to (excluding) the next occurrence of `base64,`. -/
def takeToMarker : List Char → List Char
  | [] => []
  | c :: rest =>
    if startsWithL b64Marker (c :: rest) then []
    else c :: takeToMarker rest

/-- JavaScript `imageDataURL.includes('base64,')`. -/
def includesB64 (s : List Char) : Bool := (dropAfterMarker s).isSome

/-- JavaScript `imageDataURL.split('base64,')[1]`: the segment between
the first and second occurrence of the marker.  The handler only
evaluates this after `includes('base64,')` succeeded; `[]` stands for
the `undefined` of the impossible missing-marker case. -/
def base64Segment (s : List Char) : List Char :=
  match dropAfterMarker s with
  | some suffix => takeToMarker suffix
  | none => []

/-- The cap `const maxSize = 10 * 1024 * 1024`. -/
def maxImageSize : Nat := 10 * 1024 * 1024

/-- Validator `validateImageDataURL`: returns `some errorMessage` when invalid.
The size test `estimatedSize > maxSize` with
`estimatedSize = (base64Data.length * 3) / 4` is a JavaScript float
division, exact for every length a JavaScript string can have; over
exact arithmetic `length * 3 / 4 > maxSize` holds iff
`length * 3 > 4 * maxSize`, which is the form used here. -/
def validateImageDataURL (s : List Char) : Option String :=
  if !(startsWithL dataImageMark s) then
    some "Invalid image format. Must be a data URL starting with \"data:image/\""
  else if !(includesB64 s) then
    some "Invalid image format. Must be base64 encoded"
  else if (base64Segment s).length * 3 > 4 * maxImageSize then
    some "Image too large. Maximum size is 10MB"
  else
    none

/-- Body of a generation request; absent fields are `vUndef`. -/
structure GenerateBody where
  imageDataURL : JSValue
  prompt : JSValue
deriving DecidableEq

/-- Outcome of the generate route handler up to the external call:
either an error response, or the call to
`generateCodeFromImageDataURL(imageDataURL, prompt)` is attempted. -/
inductive GenOutcome where
  | reject (status : Nat) (error : String)
  | callGeneration (imageDataURL : List Char) (prompt : JSValue)
deriving DecidableEq

/-- The POST /api/generate handler body (after the JWT middleware):
body-shape check, required `imageDataURL`, optional `prompt`, image
validation, then the `V0_API_KEY` configuration check. -/
def generateHandler (body : Option GenerateBody) (hasApiKey : Bool) : GenOutcome :=
  match body with
  | none => .reject 400 "Invalid request body. Expected JSON object."
  | some b =>
    match b.imageDataURL with
    | .vStr s =>
      if s.isEmpty then
        .reject 400 "Missing or invalid imageDataURL. Must be a base64 data URL string."
      else if b.prompt.truthy && !b.prompt.isString then
        .reject 400 "Invalid prompt. Must be a string."
      else
        match validateImageDataURL s with
        | some err => .reject 400 err
        | none =>
          if !hasApiKey then
            .reject 500 "Server configuration error: Missing API key"
          else
            .callGeneration s b.prompt
    | _ => .reject 400 "Missing or invalid imageDataURL. Must be a base64 data URL string."

/-- The 200 response of the generate route on upstream success: the
`code` field is the raw model text passed through the Output
Sanitizer. -/
structure GenSuccessResponse where
  status : Nat
  success : Bool
  code : List Char
deriving DecidableEq

/-- The response `res.status(200).json` with `success: true` and `code: filterThinkingTags raw`. -/
def generateSuccessResponse (rawModelText : List Char) : GenSuccessResponse :=
  ⟨200, true, filterThinkingTags rawModelText⟩

/-! ### Project Scaffolder (`createVercelDeployment`,
`src/backend/routers/deploy.ts`): the template file contents. -/

/-- Content of `lib/utils.ts` (the `cn` helper required by all shadcn components). -/
def libUtilsData : List Char :=
  ("import \x7b type ClassValue, clsx \x7d from \"clsx\"\nimport \x7b twMerge \x7d from \"tailwind-merge\"\n\nexport function cn(...inputs: ClassValue[]) \x7b\n  return twMerge(clsx(inputs))\n\x7d").toList

/-- Content of `components/ui/button.tsx`. -/
def uiButtonData : List Char :=
  ("import * as React from \"react\"\nimport \x7b Slot \x7d from \"@radix-ui/react-slot\"\nimport \x7b cva, type VariantProps \x7d from \"class-variance-authority\"\nimport \x7b cn \x7d from \"@/lib/utils\"\n\nconst buttonVariants = cva(\n  \"inline-flex items-center justify-center whitespace-nowrap rounded-md text-sm font-medium ring-offset-background transition-colors focus-visible:outline-none focus-visible:ring-2 focus-visible:ring-ring focus-visible:ring-offset-2 disabled:pointer-events-none disabled:opacity-50\",\n  \x7b\n    variants: \x7b\n      variant: \x7b\n        default: \"bg-primary text-primary-foreground hover:bg-primary/90\",\n        destructive: \"bg-destructive text-destructive-foreground hover:bg-destructive/90\",\n        outline: \"border border-input bg-background hover:bg-accent hover:text-accent-foreground\",\n        secondary: \"bg-secondary text-secondary-foreground hover:bg-secondary/80\",\n        ghost: \"hover:bg-accent hover:text-accent-foreground\",\n        link: \"text-primary underline-offset-4 hover:underline\",\n      \x7d,\n      size: \x7b\n        default: \"h-10 px-4 py-2\",\n        sm: \"h-9 rounded-md px-3\",\n        lg: \"h-11 rounded-md px-8\",\n        icon: \"h-10 w-10\",\n      \x7d,\n    \x7d,\n    defaultVariants: \x7b\n      variant: \"default\",\n      size: \"default\",\n    \x7d,\n  \x7d\n)\n\nexport interface ButtonProps\n  extends React.ButtonHTMLAttributes<HTMLButtonElement>,\n    VariantProps<typeof buttonVariants> \x7b\n  asChild?: boolean\n\x7d\n\nconst Button = React.forwardRef<HTMLButtonElement, ButtonProps>(\n  (\x7b className, variant, size, asChild = false, ...props \x7d, ref) => \x7b\n    const Comp = asChild ? Slot : \"button\"\n    return (\n      <Comp\n        className=\x7bcn(buttonVariants(\x7b variant, size, className \x7d))\x7d\n        ref=\x7bref\x7d\n        \x7b...props\x7d\n      />\n    )\n  \x7d\n)\nButton.displayName = \"Button\"\n\nexport \x7b Button, buttonVariants \x7d").toList

/-- Content of `components/ui/card.tsx`. -/
def uiCardData : List Char :=
  ("import * as React from \"react\"\nimport \x7b cn \x7d from \"@/lib/utils\"\n\nconst Card = React.forwardRef<\n  HTMLDivElement,\n  React.HTMLAttributes<HTMLDivElement>\n>((\x7b className, ...props \x7d, ref) => (\n  <div\n    ref=\x7bref\x7d\n    className=\x7bcn(\n      \"rounded-lg border bg-card text-card-foreground shadow-sm\",\n      className\n    )\x7d\n    \x7b...props\x7d\n  />\n))\nCard.displayName = \"Card\"\n\nconst CardHeader = React.forwardRef<\n  HTMLDivElement,\n  React.HTMLAttributes<HTMLDivElement>\n>((\x7b className, ...props \x7d, ref) => (\n  <div\n    ref=\x7bref\x7d\n    className=\x7bcn(\"flex flex-col space-y-1.5 p-6\", className)\x7d\n    \x7b...props\x7d\n  />\n))\nCardHeader.displayName = \"CardHeader\"\n\nconst CardTitle = React.forwardRef<\n  HTMLParagraphElement,\n  React.HTMLAttributes<HTMLHeadingElement>\n>((\x7b className, ...props \x7d, ref) => (\n  <h3\n    ref=\x7bref\x7d\n    className=\x7bcn(\n      \"text-2xl font-semibold leading-none tracking-tight\",\n      className\n    )\x7d\n    \x7b...props\x7d\n  />\n))\nCardTitle.displayName = \"CardTitle\"\n\nconst CardDescription = React.forwardRef<\n  HTMLParagraphElement,\n  React.HTMLAttributes<HTMLParagraphElement>\n>((\x7b className, ...props \x7d, ref) => (\n  <p\n    ref=\x7bref\x7d\n    className=\x7bcn(\"text-sm text-muted-foreground\", className)\x7d\n    \x7b...props\x7d\n  />\n))\nCardDescription.displayName = \"CardDescription\"\n\nconst CardContent = React.forwardRef<\n  HTMLDivElement,\n  React.HTMLAttributes<HTMLDivElement>\n>((\x7b className, ...props \x7d, ref) => (\n  <div ref=\x7bref\x7d className=\x7bcn(\"p-6 pt-0\", className)\x7d \x7b...props\x7d />\n))\nCardContent.displayName = \"CardContent\"\n\nconst CardFooter = React.forwardRef<\n  HTMLDivElement,\n  React.HTMLAttributes<HTMLDivElement>\n>((\x7b className, ...props \x7d, ref) => (\n  <div\n    ref=\x7bref\x7d\n    className=\x7bcn(\"flex items-center p-6 pt-0\", className)\x7d\n    \x7b...props\x7d\n  />\n))\nCardFooter.displayName = \"CardFooter\"\n\nexport \x7b Card, CardHeader, CardFooter, CardTitle, CardDescription, CardContent \x7d").toList

/-- Content of `components/ui/input.tsx`. -/
def uiInputData : List Char :=
  ("import * as React from \"react\"\nimport \x7b cn \x7d from \"@/lib/utils\"\n\nexport interface InputProps\n  extends React.InputHTMLAttributes<HTMLInputElement> \x7b\x7d\n\nconst Input = React.forwardRef<HTMLInputElement, InputProps>(\n  (\x7b className, type, ...props \x7d, ref) => \x7b\n    return (\n      <input\n        type=\x7btype\x7d\n        className=\x7bcn(\n          \"flex h-10 w-full rounded-md border border-input bg-background px-3 py-2 text-sm ring-offset-background file:border-0 file:bg-transparent file:text-sm file:font-medium placeholder:text-muted-foreground focus-visible:outline-none focus-visible:ring-2 focus-visible:ring-ring focus-visible:ring-offset-2 disabled:cursor-not-allowed disabled:opacity-50\",\n          className\n        )\x7d\n        ref=\x7bref\x7d\n        \x7b...props\x7d\n      />\n    )\n  \x7d\n)\nInput.displayName = \"Input\"\n\nexport \x7b Input \x7d").toList

/-- Content of `components/ui/label.tsx`. -/
def uiLabelData : List Char :=
  ("import * as React from \"react\"\nimport * as LabelPrimitive from \"@radix-ui/react-label\"\nimport \x7b cva, type VariantProps \x7d from \"class-variance-authority\"\nimport \x7b cn \x7d from \"@/lib/utils\"\n\nconst labelVariants = cva(\n  \"text-sm font-medium leading-none peer-disabled:cursor-not-allowed peer-disabled:opacity-70\"\n)\n\nconst Label = React.forwardRef<\n  React.ElementRef<typeof LabelPrimitive.Root>,\n  React.ComponentPropsWithoutRef<typeof LabelPrimitive.Root> &\n    VariantProps<typeof labelVariants>\n>((\x7b className, ...props \x7d, ref) => (\n  <LabelPrimitive.Root\n    ref=\x7bref\x7d\n    className=\x7bcn(labelVariants(), className)\x7d\n    \x7b...props\x7d\n  />\n))\nLabel.displayName = LabelPrimitive.Root.displayName\n\nexport \x7b Label \x7d").toList

/-- Content of `components/ui/badge.tsx`. -/
def uiBadgeData : List Char :=
  ("import * as React from \"react\"\nimport \x7b cva, type VariantProps \x7d from \"class-variance-authority\"\nimport \x7b cn \x7d from \"@/lib/utils\"\n\nconst badgeVariants = cva(\n  \"inline-flex items-center rounded-full border px-2.5 py-0.5 text-xs font-semibold transition-colors focus:outline-none focus:ring-2 focus:ring-ring focus:ring-offset-2\",\n  \x7b\n    variants: \x7b\n      variant: \x7b\n        default:\n          \"border-transparent bg-primary text-primary-foreground hover:bg-primary/80\",\n        secondary:\n          \"border-transparent bg-secondary text-secondary-foreground hover:bg-secondary/80\",\n        destructive:\n          \"border-transparent bg-destructive text-destructive-foreground hover:bg-destructive/80\",\n        outline: \"text-foreground\",\n      \x7d,\n    \x7d,\n    defaultVariants: \x7b\n      variant: \"default\",\n    \x7d,\n  \x7d\n)\n\nexport interface BadgeProps\n  extends React.HTMLAttributes<HTMLDivElement>,\n    VariantProps<typeof badgeVariants> \x7b\x7d\n\nfunction Badge(\x7b className, variant, ...props \x7d: BadgeProps) \x7b\n  return (\n    <div className=\x7bcn(badgeVariants(\x7b variant \x7d), className)\x7d \x7b...props\x7d />\n  )\n\x7d\n\nexport \x7b Badge, badgeVariants \x7d").toList

/-- Content of `components/ui/progress.tsx`. -/
def uiProgressData : List Char :=
  ("import * as React from \"react\"\nimport * as ProgressPrimitive from \"@radix-ui/react-progress\"\nimport \x7b cn \x7d from \"@/lib/utils\"\n\nconst Progress = React.forwardRef<\n  React.ElementRef<typeof ProgressPrimitive.Root>,\n  React.ComponentPropsWithoutRef<typeof ProgressPrimitive.Root>\n>((\x7b className, value, ...props \x7d, ref) => (\n  <ProgressPrimitive.Root\n    ref=\x7bref\x7d\n    className=\x7bcn(\n      \"relative h-4 w-full overflow-hidden rounded-full bg-secondary\",\n      className\n    )\x7d\n    \x7b...props\x7d\n  >\n    <ProgressPrimitive.Indicator\n      className=\"h-full w-full flex-1 bg-primary transition-all\"\n      style=\x7b\x7b transform: `translateX(-$\x7b100 - (value || 0)\x7d%)` \x7d\x7d\n    />\n  </ProgressPrimitive.Root>\n))\nProgress.displayName = ProgressPrimitive.Root.displayName\n\nexport \x7b Progress \x7d").toList

/-- Content of `components/ui/slider.tsx`. -/
def uiSliderData : List Char :=
  ("import * as React from \"react\"\nimport * as SliderPrimitive from \"@radix-ui/react-slider\"\nimport \x7b cn \x7d from \"@/lib/utils\"\n\nconst Slider = React.forwardRef<\n  React.ElementRef<typeof SliderPrimitive.Root>,\n  React.ComponentPropsWithoutRef<typeof SliderPrimitive.Root>\n>((\x7b className, ...props \x7d, ref) => (\n  <SliderPrimitive.Root\n    ref=\x7bref\x7d\n    className=\x7bcn(\n      \"relative flex w-full touch-none select-none items-center\",\n      className\n    )\x7d\n    \x7b...props\x7d\n  >\n    <SliderPrimitive.Track className=\"relative h-2 w-full grow overflow-hidden rounded-full bg-secondary\">\n      <SliderPrimitive.Range className=\"absolute h-full bg-primary\" />\n    </SliderPrimitive.Track>\n    <SliderPrimitive.Thumb className=\"block h-5 w-5 rounded-full border-2 border-primary bg-background ring-offset-background transition-colors focus-visible:outline-none focus-visible:ring-2 focus-visible:ring-ring focus-visible:ring-offset-2 disabled:pointer-events-none disabled:opacity-50\" />\n  </SliderPrimitive.Root>\n))\nSlider.displayName = SliderPrimitive.Root.displayName\n\nexport \x7b Slider \x7d").toList

/-- Content of `next.config.js`. -/
def nextConfigData : List Char :=
  ("/** @type \x7bimport(\x27next\x27).NextConfig\x7d */\nmodule.exports = \x7b\n  reactStrictMode: true,\n\x7d").toList

/-- Content of `app/layout.tsx`; the page title embeds the component name. -/
def appLayoutData (componentName : List Char) : List Char :=
  ("import \x27./globals.css\x27\nimport type \x7b Metadata \x7d from \x27next\x27\n\nexport const metadata: Metadata = \x7b\n  title: \x27").toList ++ componentName ++ (" - Generated by v0\x27,\n  description: \x27Generated component using v0 AI\x27,\n\x7d\n\nexport default function RootLayout(\x7b\n  children,\n\x7d: \x7b\n  children: React.ReactNode\n\x7d) \x7b\n  return (\n    <html lang=\"en\">\n      <body>\x7bchildren\x7d</body>\n    </html>\n  )\n\x7d").toList

/-- Content of `app/page.tsx`: the entry page imports and renders the generated component by its declared name. -/
def appPageData (componentName : List Char) : List Char :=
  ("import ").toList ++ componentName ++ (" from \x27@/components/").toList ++ componentName ++ ("\x27\n\nexport default function Home() \x7b\n  return (\n    <main className=\"min-h-screen bg-background py-6 flex flex-col justify-center sm:py-12\">\n      <div className=\"flex flex-col items-center justify-center w-full flex-1 px-4 sm:px-20\">\n        <div className=\"w-full max-w-4xl\">\n          <").toList ++ componentName ++ (" />\n        </div>\n        <p className=\"mt-8 text-sm text-muted-foreground\">\n          Generated using v0\n        </p>\n      </div>\n    </main>\n  )\n\x7d").toList

/-- Content of `app/globals.css` (design-token CSS variables, light and dark). -/
def globalsCssData : List Char :=
  ("@tailwind base;\n@tailwind components;\n@tailwind utilities;\n\n@layer base \x7b\n  :root \x7b\n    --background: 0 0% 100%;\n    --foreground: 222.2 84% 4.9%;\n    --card: 0 0% 100%;\n    --card-foreground: 222.2 84% 4.9%;\n    --popover: 0 0% 100%;\n    --popover-foreground: 222.2 84% 4.9%;\n    --primary: 222.2 47.4% 11.2%;\n    --primary-foreground: 210 40% 98%;\n    --secondary: 210 40% 96%;\n    --secondary-foreground: 222.2 47.4% 11.2%;\n    --muted: 210 40% 96%;\n    --muted-foreground: 215.4 16.3% 46.9%;\n    --accent: 210 40% 96%;\n    --accent-foreground: 222.2 47.4% 11.2%;\n    --destructive: 0 84.2% 60.2%;\n    --destructive-foreground: 210 40% 98%;\n    --border: 214.3 31.8% 91.4%;\n    --input: 214.3 31.8% 91.4%;\n    --ring: 222.2 84% 4.9%;\n    --radius: 0.5rem;\n  \x7d\n  \n  .dark \x7b\n    --background: 222.2 84% 4.9%;\n    --foreground: 210 40% 98%;\n    --card: 222.2 84% 4.9%;\n    --card-foreground: 210 40% 98%;\n    --popover: 222.2 84% 4.9%;\n    --popover-foreground: 210 40% 98%;\n    --primary: 210 40% 98%;\n    --primary-foreground: 222.2 47.4% 11.2%;\n    --secondary: 217.2 32.6% 17.5%;\n    --secondary-foreground: 210 40% 98%;\n    --muted: 217.2 32.6% 17.5%;\n    --muted-foreground: 215 20.2% 65.1%;\n    --accent: 217.2 32.6% 17.5%;\n    --accent-foreground: 210 40% 98%;\n    --destructive: 0 62.8% 30.6%;\n    --destructive-foreground: 210 40% 98%;\n    --border: 217.2 32.6% 17.5%;\n    --input: 217.2 32.6% 17.5%;\n    --ring: 212.7 26.8% 83.9%;\n  \x7d\n\x7d\n\n* \x7b\n  border-color: hsl(var(--border));\n\x7d\n\nbody \x7b\n  color: hsl(var(--foreground));\n  background: hsl(var(--background));\n\x7d").toList

/-- Content of `tailwind.config.js` (shadcn theme wired to the CSS variables). -/
def tailwindConfigData : List Char :=
  ("/** @type \x7bimport(\x27tailwindcss\x27).Config\x7d */\nmodule.exports = \x7b\n  darkMode: [\"class\"],\n  content: [\n    \x27./app/**/*.\x7bjs,ts,jsx,tsx,mdx\x7d\x27,\n    \x27./components/**/*.\x7bjs,ts,jsx,tsx,mdx\x7d\x27,\n  ],\n  theme: \x7b\n    container: \x7b\n      center: true,\n      padding: \"2rem\",\n      screens: \x7b\n        \"2xl\": \"1400px\",\n      \x7d,\n    \x7d,\n    extend: \x7b\n      colors: \x7b\n        border: \"hsl(var(--border))\",\n        input: \"hsl(var(--input))\",\n        ring: \"hsl(var(--ring))\",\n        background: \"hsl(var(--background))\",\n        foreground: \"hsl(var(--foreground))\",\n        primary: \x7b\n          DEFAULT: \"hsl(var(--primary))\",\n          foreground: \"hsl(var(--primary-foreground))\",\n        \x7d,\n        secondary: \x7b\n          DEFAULT: \"hsl(var(--secondary))\",\n          foreground: \"hsl(var(--secondary-foreground))\",\n        \x7d,\n        destructive: \x7b\n          DEFAULT: \"hsl(var(--destructive))\",\n          foreground: \"hsl(var(--destructive-foreground))\",\n        \x7d,\n        muted: \x7b\n          DEFAULT: \"hsl(var(--muted))\",\n          foreground: \"hsl(var(--muted-foreground))\",\n        \x7d,\n        accent: \x7b\n          DEFAULT: \"hsl(var(--accent))\",\n          foreground: \"hsl(var(--accent-foreground))\",\n        \x7d,\n        popover: \x7b\n          DEFAULT: \"hsl(var(--popover))\",\n          foreground: \"hsl(var(--popover-foreground))\",\n        \x7d,\n        card: \x7b\n          DEFAULT: \"hsl(var(--card))\",\n          foreground: \"hsl(var(--card-foreground))\",\n        \x7d,\n      \x7d,\n      borderRadius: \x7b\n        lg: \"var(--radius)\",\n        md: \"calc(var(--radius) - 2px)\",\n        sm: \"calc(var(--radius) - 4px)\",\n      \x7d,\n      keyframes: \x7b\n        \"accordion-down\": \x7b\n          from: \x7b height: \"0\" \x7d,\n          to: \x7b height: \"var(--radix-accordion-content-height)\" \x7d,\n        \x7d,\n        \"accordion-up\": \x7b\n          from: \x7b height: \"var(--radix-accordion-content-height)\" \x7d,\n          to: \x7b height: \"0\" \x7d,\n        \x7d,\n      \x7d,\n      animation: \x7b\n        \"accordion-down\": \"accordion-down 0.2s ease-out\",\n        \"accordion-up\": \"accordion-up 0.2s ease-out\",\n      \x7d,\n    \x7d,\n  \x7d,\n  plugins: [],\n\x7d").toList

/-- Content of `postcss.config.js`. -/
def postcssConfigData : List Char :=
  ("module.exports = \x7b\n  plugins: \x7b\n    tailwindcss: \x7b\x7d,\n    autoprefixer: \x7b\x7d,\n  \x7d,\n\x7d").toList

/-- Content of `src/App.tsx` for the react branch: imports and renders the generated component. -/
def srcAppData (componentName : List Char) : List Char :=
  ("import React from \x27react\x27;\nimport ").toList ++ componentName ++ (" from \x27./components/").toList ++ componentName ++ ("\x27;\nimport \x27./index.css\x27;\n\nfunction App() \x7b\n  return (\n    <div className=\"min-h-screen bg-gray-100 py-6 flex flex-col justify-center sm:py-12\">\n      <main className=\"flex flex-col items-center justify-center w-full flex-1 px-4 sm:px-20 text-center\">\n        <h1 className=\"text-3xl font-bold mb-8\">Generated Component</h1>\n        <div className=\"w-full max-w-4xl\">\n          <").toList ++ componentName ++ (" />\n        </div>\n        <p className=\"mt-8 text-sm text-gray-500\">\n          Generated using Vercel v0 model\n        </p>\n      </main>\n    </div>\n  );\n\x7d\n\nexport default App;").toList

/-- Content of `src/index.css` (Tailwind directives). -/
def indexCssData : List Char :=
  ("@tailwind base;\n@tailwind components;\n@tailwind utilities;\n").toList

/-- Content of `src/index.tsx`. -/
def indexTsxData : List Char :=
  ("import React from \x27react\x27;\nimport ReactDOM from \x27react-dom/client\x27;\nimport \x27./index.css\x27;\nimport App from \x27./App\x27;\n\nconst root = ReactDOM.createRoot(\n  document.getElementById(\x27root\x27) as HTMLElement\n);\nroot.render(\n  <React.StrictMode>\n    <App />\n  </React.StrictMode>\n);").toList

/-- Tail of the `package.json` produced for the next branch: everything after the `JSON.stringify`-escaped project name. -/
def packageJsonNextSuffix : List Char :=
  (",\"version\":\"0.1.0\",\"private\":true,\"scripts\":\x7b\"dev\":\"next dev\",\"build\":\"next build\",\"start\":\"next start\",\"lint\":\"next lint\"\x7d,\"dependencies\":\x7b\"next\":\"^15.0.0\",\"react\":\"^19.0.0\",\"react-dom\":\"^19.0.0\",\"typescript\":\"^5.6.0\",\"@types/node\":\"^22.0.0\",\"@types/react\":\"^19.0.0\",\"@types/react-dom\":\"^19.0.0\",\"ai\":\"^4.0.0\",\"@ai-sdk/react\":\"^0.0.62\",\"@ai-sdk/openai\":\"^1.0.0\",\"zod\":\"^3.23.8\",\"tailwindcss\":\"^3.4.0\",\"autoprefixer\":\"^10.4.16\",\"postcss\":\"^8.4.32\",\"class-variance-authority\":\"^0.7.0\",\"clsx\":\"^2.0.0\",\"tailwind-merge\":\"^2.0.0\",\"lucide-react\":\"^0.522.0\",\"@radix-ui/react-slot\":\"^1.0.2\",\"@radix-ui/react-label\":\"^2.0.2\",\"@radix-ui/react-dialog\":\"^1.0.5\",\"@radix-ui/react-dropdown-menu\":\"^2.0.6\",\"@radix-ui/react-select\":\"^2.0.0\",\"@radix-ui/react-separator\":\"^1.0.3\",\"@radix-ui/react-avatar\":\"^1.0.4\",\"@radix-ui/react-checkbox\":\"^1.0.4\",\"@radix-ui/react-popover\":\"^1.0.7\",\"@radix-ui/react-scroll-area\":\"^1.0.5\",\"@radix-ui/react-switch\":\"^1.0.3\",\"@radix-ui/react-tabs\":\"^1.0.4\",\"@radix-ui/react-toast\":\"^1.1.5\",\"@radix-ui/react-tooltip\":\"^1.0.7\",\"@radix-ui/react-accordion\":\"^1.1.2\",\"@radix-ui/react-alert-dialog\":\"^1.0.5\",\"@radix-ui/react-progress\":\"^1.0.3\",\"@radix-ui/react-radio-group\":\"^1.1.3\",\"@radix-ui/react-slider\":\"^1.1.2\",\"@radix-ui/react-toggle\":\"^1.0.3\",\"@radix-ui/react-collapsible\":\"^1.0.3\",\"@radix-ui/react-hover-card\":\"^1.0.7\",\"@radix-ui/react-menubar\":\"^1.0.4\",\"@radix-ui/react-navigation-menu\":\"^1.1.4\",\"@radix-ui/react-aspect-ratio\":\"^1.0.3\",\"@radix-ui/react-context-menu\":\"^2.1.5\",\"@radix-ui/react-toggle-group\":\"^1.0.4\",\"react-hook-form\":\"^7.48.2\",\"@hookform/resolvers\":\"^3.3.2\",\"recharts\":\"^2.8.0\",\"motion\":\"^1.0.0\",\"next-themes\":\"^0.2.1\",\"date-fns\":\"^2.30.0\"\x7d,\"devDependencies\":\x7b\"eslint\":\"^8.57.0\",\"eslint-config-next\":\"^15.0.0\",\"@tailwindcss/typography\":\"^0.5.10\"\x7d\x7d").toList

/-- Tail of the `package.json` produced for the react branch. -/
def packageJsonReactSuffix : List Char :=
  (",\"version\":\"0.1.0\",\"private\":true,\"dependencies\":\x7b\"react\":\"^19.0.0\",\"react-dom\":\"^19.0.0\",\"react-scripts\":\"5.0.1\",\"typescript\":\"^5.1.6\",\"@types/react\":\"^19.0.0\",\"@types/react-dom\":\"^19.0.0\",\"tailwindcss\":\"^3.3.3\",\"postcss\":\"^8.4.28\",\"autoprefixer\":\"^10.4.15\"\x7d,\"scripts\":\x7b\"start\":\"react-scripts start\",\"build\":\"react-scripts build\",\"test\":\"react-scripts test\",\"eject\":\"react-scripts eject\"\x7d\x7d").toList

/-- Content of `tsconfig.json` for the next branch (exact `JSON.stringify` output). -/
def tsconfigNextData : List Char :=
  ("\x7b\"compilerOptions\":\x7b\"target\":\"es5\",\"lib\":[\"dom\",\"dom.iterable\",\"esnext\"],\"allowJs\":true,\"skipLibCheck\":true,\"strict\":true,\"forceConsistentCasingInFileNames\":true,\"noEmit\":true,\"esModuleInterop\":true,\"module\":\"esnext\",\"moduleResolution\":\"node\",\"resolveJsonModule\":true,\"isolatedModules\":true,\"jsx\":\"preserve\",\"incremental\":true,\"plugins\":[\x7b\"name\":\"next\"\x7d],\"paths\":\x7b\"@/*\":[\"./*\"]\x7d\x7d,\"include\":[\"next-env.d.ts\",\"**/*.ts\",\"**/*.tsx\",\".next/types/**/*.ts\"],\"exclude\":[\"node_modules\"]\x7d").toList

/-! ### Project Scaffolder: file-set assembly -/

/-- Hexadecimal digit (lower case), for `JSON.stringify` control-char
escapes. -/
def hexDigitChar (n : Nat) : Char :=
  if n < 10 then Char.ofNat (48 + n) else Char.ofNat (87 + n)

/-- Escaping of one character inside a `JSON.stringify` string value. -/
def jsonEscapeChar (c : Char) : List Char :=
  if c = '"' then ['\\', '"']
  else if c = '\\' then ['\\', '\\']
  else if c = '\x08' then ['\\', 'b']
  else if c = '\t' then ['\\', 't']
  else if c = '\n' then ['\\', 'n']
  else if c = '\x0c' then ['\\', 'f']
  else if c = '\r' then ['\\', 'r']
  else if c.toNat < 32 then
    ['\\', 'u', '0', '0', hexDigitChar (c.toNat / 16), hexDigitChar (c.toNat % 16)]
  else [c]

/-- Escaping of a string body as `JSON.stringify` does. -/
def jsonEscape (s : List Char) : List Char := (s.map jsonEscapeChar).flatten

/-- Serialization of a string as `JSON.stringify` does: quoted and escaped. -/
def jsonStr (s : List Char) : List Char := '"' :: (jsonEscape s ++ ['"'])

/-- The `package.json` contents for the next branch
(`JSON.stringify({ name: projectName, ... })`). -/
def packageJsonNextData (projectName : List Char) : List Char :=
  ("\x7b\"name\":").toList ++ jsonStr projectName ++ packageJsonNextSuffix

/-- The `package.json` contents for the react branch. -/
def packageJsonReactData (projectName : List Char) : List Char :=
  ("\x7b\"name\":").toList ++ jsonStr projectName ++ packageJsonReactSuffix

/-- Target framework of a deployment. -/
inductive Framework where
  | next
  | react
deriving DecidableEq

/-- One `{ file, data }` entry of the deployment payload. -/
structure DeploymentFile where
  file : List Char
  data : List Char
deriving DecidableEq

/-- The complete file set assembled by `createVercelDeployment`, in the
push order of the source: for `next` the configs, the design-token
styling, the shadcn/ui boilerplate added by `addCommonShadcnComponents`,
and the generated component last; for `react` the simplified
create-react-app set. -/
def deploymentFiles (code componentName projectName : List Char) :
    Framework → List DeploymentFile
  | .next =>
    [ ⟨("package.json").toList, packageJsonNextData projectName⟩,
      ⟨("tsconfig.json").toList, tsconfigNextData⟩,
      ⟨("next.config.js").toList, nextConfigData⟩,
      ⟨("app/layout.tsx").toList, appLayoutData componentName⟩,
      ⟨("app/page.tsx").toList, appPageData componentName⟩,
      ⟨("app/globals.css").toList, globalsCssData⟩,
      ⟨("tailwind.config.js").toList, tailwindConfigData⟩,
      ⟨("postcss.config.js").toList, postcssConfigData⟩,
      ⟨("lib/utils.ts").toList, libUtilsData⟩,
      ⟨("components/ui/button.tsx").toList, uiButtonData⟩,
      ⟨("components/ui/card.tsx").toList, uiCardData⟩,
      ⟨("components/ui/input.tsx").toList, uiInputData⟩,
      ⟨("components/ui/label.tsx").toList, uiLabelData⟩,
      ⟨("components/ui/badge.tsx").toList, uiBadgeData⟩,
      ⟨("components/ui/progress.tsx").toList, uiProgressData⟩,
      ⟨("components/ui/slider.tsx").toList, uiSliderData⟩,
      ⟨("components/").toList ++ componentName ++ (".tsx").toList, code⟩ ]
  | .react =>
    [ ⟨("package.json").toList, packageJsonReactData projectName⟩,
      ⟨("src/components/").toList ++ componentName ++ (".tsx").toList, code⟩,
      ⟨("src/App.tsx").toList, srcAppData componentName⟩,
      ⟨("src/index.css").toList, indexCssData⟩,
      ⟨("src/index.tsx").toList, indexTsxData⟩ ]

/-- The paths of the seven boilerplate UI-primitive files pushed by
`addCommonShadcnComponents`. -/
def uiPrimitivePaths : List (List Char) :=
  [("components/ui/button.tsx").toList, ("components/ui/card.tsx").toList,
   ("components/ui/input.tsx").toList, ("components/ui/label.tsx").toList,
   ("components/ui/badge.tsx").toList, ("components/ui/progress.tsx").toList,
   ("components/ui/slider.tsx").toList]

/-- The component names whose derived path collides with a boilerplate
UI-primitive path in the next branch. -/
def uiCollisionNames : List (List Char) :=
  [("ui/button").toList, ("ui/card").toList, ("ui/input").toList,
   ("ui/label").toList, ("ui/badge").toList, ("ui/progress").toList,
   ("ui/slider").toList]

/-! ### Deploy handler (`src/backend/routers/deploy.ts`) -/

/-- Body of a deployment request; absent fields are `vUndef`. -/
structure DeployBody where
  code : JSValue
  componentName : JSValue
  projectName : JSValue
  framework : JSValue
deriving DecidableEq

/-- Outcome of the deploy route handler up to the external call: either
an error response, or `createVercelDeployment` is invoked with the
formatted arguments. -/
inductive DeployOutcome where
  | reject (status : Nat) (error : String)
  | callDeployment (code componentName projectName : List Char) (framework : Framework)
deriving DecidableEq

/-- Fallback component name. -/
def defaultComponentName : List Char := "GeneratedComponent".toList

/-- The auto-generated project name
`forge-preview-${userId.substring(0,8)}-${Date.now().toString(36)}`;
the time-based suffix is abstracted as the `nowBase36` parameter. -/
def autoProjectName (userId nowBase36 : List Char) : List Char :=
  ("forge-preview-").toList ++ userId.take 8 ++ ("-").toList ++ nowBase36

/-- JavaScript `v || fallback` for the two name fields.  In the handler
this only runs after validation, where a truthy value is necessarily a
string, so non-string truthy values need no separate case. -/
def stringOrElse (v : JSValue) (fallback : List Char) : List Char :=
  match v with
  | .vStr s => if s.isEmpty then fallback else s
  | _ => fallback

/-- JavaScript `['next', 'react'].includes(framework)` (strict
equality, so any non-string is never included). -/
def isFrameworkValue (v : JSValue) : Bool :=
  v == .vStr ("next").toList || v == .vStr ("react").toList

/-- The selection `framework || 'next'` combined with the `framework === 'next'`
branch inside `createVercelDeployment`: only the string `react` selects
the react branch. -/
def toFramework (v : JSValue) : Framework :=
  if v == .vStr ("react").toList then .react else .next

/-- The POST /api/deploy handler body (after the JWT middleware):
body-shape check, required `code`, the three optional fields, then the
`VERCEL_ACCESS_TOKEN` configuration check.  No size cap is applied to
`code`. -/
def deployHandler (body : Option DeployBody) (hasDeployToken : Bool)
    (userId nowBase36 : List Char) : DeployOutcome :=
  match body with
  | none => .reject 400 "Invalid request body. Expected JSON object."
  | some b =>
    match b.code with
    | .vStr c =>
      if c.isEmpty then
        .reject 400 "Missing or invalid code. Must be a string."
      else if b.componentName.truthy && !b.componentName.isString then
        .reject 400 "Invalid componentName. Must be a string."
      else if b.projectName.truthy && !b.projectName.isString then
        .reject 400 "Invalid projectName. Must be a string."
      else if b.framework.truthy && !(isFrameworkValue b.framework) then
        .reject 400 "Invalid framework. Must be \"next\" or \"react\"."
      else if !hasDeployToken then
        .reject 500 "Server configuration error: Missing deployment token"
      else
        .callDeployment c (stringOrElse b.componentName defaultComponentName)
          (stringOrElse b.projectName (autoProjectName userId nowBase36))
          (toFramework b.framework)
    | _ => .reject 400 "Missing or invalid code. Must be a string."



/-! ## Helper lemmas -/

theorem startsWithL_append (p r : List Char) : startsWithL p (p ++ r) = true := by
  induction p with
  | nil => rfl
  | cons c cs ih => simp [startsWithL, ih]

theorem drop_bearer (tok : List Char) : (("Bearer ").toList ++ tok).drop 7 = tok := rfl

theorem withAuth_signed_shape (tok secret : List Char)
    (verify : List Char → List Char → VerifyOutcome) (now : Nat) (d : CanvaUserJWT)
    (hsec : secret ≠ []) (hver : verify tok secret = .ok d)
    (hsub : d.sub ≠ []) (haud : d.aud ≠ []) (hiss : d.iss ≠ []) :
    withAuth (some (("Bearer ").toList ++ tok)) (some secret) verify now =
      (if !(d.iss == trustedIssuer) then .respond 401 "Invalid JWT: invalid issuer"
       else if (match d.exp with
                | some e => (e != 0) && decide (e < now)
                | none => false) then .respond 401 "JWT token has expired"
       else .handled d) := by
  simp only [withAuth, startsWithL_append, drop_bearer, hver, Bool.not_true, Bool.false_eq_true,
    if_false, List.isEmpty_iff, hsec, hsub, haud, hiss]
  simp [List.isEmpty_iff, hsec, hsub, haud, hiss]

/-! ## C2: wrong issuer is rejected -/

/-- C2: for every request carrying a well-formed, correctly signed
token (header `Bearer <token>`, secret configured, signature verifies,
required claims present) whose issuer claim differs from the trusted
issuer `canva.com`, the Identity Verifier responds HTTP 401 with the
issuer-specific Unauthenticated error, and the protected handler is
never invoked. -/
theorem c2_wrong_issuer_unauthenticated (tok secret : List Char)
    (verify : List Char → List Char → VerifyOutcome) (now : Nat) (d : CanvaUserJWT)
    (hsec : secret ≠ []) (hver : verify tok secret = .ok d)
    (hsub : d.sub ≠ []) (haud : d.aud ≠ []) (hiss : d.iss ≠ [])
    (hwrong : d.iss ≠ trustedIssuer) :
    withAuth (some (("Bearer ").toList ++ tok)) (some secret) verify now =
        .respond 401 "Invalid JWT: invalid issuer" ∧
      ∀ u, withAuth (some (("Bearer ").toList ++ tok)) (some secret) verify now ≠
        .handled u := by
  have h := withAuth_signed_shape tok secret verify now d hsec hver hsub haud hiss
  rw [h]
  constructor
  · simp [hwrong]
  · intro u
    simp [hwrong]

/-- Witness for C2 at a concrete token, secret, verifier and issuer
`evil.com`. -/
theorem c2_witness :
    (("sec").toList ≠ [] ∧ ("evil.com").toList ≠ trustedIssuer) ∧
      withAuth (some (("Bearer ").toList ++ ("tok").toList)) (some ("sec").toList)
        (fun _ _ => .ok ⟨("user").toList, ("app").toList, ("evil.com").toList, some 99, 1⟩) 5 =
        .respond 401 "Invalid JWT: invalid issuer" :=
  ⟨⟨by decide, by decide⟩,
    (c2_wrong_issuer_unauthenticated ("tok").toList ("sec").toList
      (fun _ _ => .ok ⟨("user").toList, ("app").toList, ("evil.com").toList, some 99, 1⟩) 5
      ⟨("user").toList, ("app").toList, ("evil.com").toList, some 99, 1⟩
      (by decide) rfl (by decide) (by decide) (by decide) (by decide)).1⟩

/-! ## C10: a token without an expiry claim is accepted -/

/-- C10: a token whose signature verifies, whose subject, audience and
issuer claims are present with issuer `canva.com`, but which carries no
expiry claim (absent or zero), is accepted for every current time: the
expiry check is skipped (`decoded.exp` is falsy) and the protected
handler is invoked. -/
theorem c10_missing_expiry_accepted (tok secret : List Char)
    (verify : List Char → List Char → VerifyOutcome) (now : Nat) (d : CanvaUserJWT)
    (hsec : secret ≠ []) (hver : verify tok secret = .ok d)
    (hsub : d.sub ≠ []) (haud : d.aud ≠ [])
    (hiss : d.iss = trustedIssuer) (hexp : d.exp = none ∨ d.exp = some 0) :
    withAuth (some (("Bearer ").toList ++ tok)) (some secret) verify now = .handled d := by
  have hiss' : d.iss ≠ [] := by rw [hiss]; decide
  have h := withAuth_signed_shape tok secret verify now d hsec hver hsub haud hiss'
  rw [h, hiss]
  rcases hexp with h0 | h0 <;> simp [h0]

/-- Witness for C10: a concrete verified token with `exp` absent is
handled even at a very late current time. -/
theorem c10_witness :
    (("sec").toList ≠ [] ∧ ("canva.com").toList = trustedIssuer) ∧
      withAuth (some (("Bearer ").toList ++ ("tok").toList)) (some ("sec").toList)
        (fun _ _ => .ok ⟨("user").toList, ("app").toList, ("canva.com").toList, none, 1⟩)
        999999999 =
        .handled ⟨("user").toList, ("app").toList, ("canva.com").toList, none, 1⟩ :=
  ⟨⟨by decide, by decide⟩,
    c10_missing_expiry_accepted ("tok").toList ("sec").toList
      (fun _ _ => .ok ⟨("user").toList, ("app").toList, ("canva.com").toList, none, 1⟩)
      999999999
      ⟨("user").toList, ("app").toList, ("canva.com").toList, none, 1⟩
      (by decide) rfl (by decide) (by decide) (by decide) (Or.inl rfl)⟩

/-! ## C4: fixed-window rate limiting -/

theorem updateState_same (st : RLState) (k : List Char) (e : RateEntry) :
    updateState st k e k = some e := by
  simp [updateState]

theorem rateLimitRun_cons (m w : Nat) (st : RLState) (k : List Char) (t : Nat)
    (reqs : List (List Char × Nat)) :
    rateLimitRun m w st ((k, t) :: reqs) =
      ((rateLimitStep m w st k t).1 ::
          (rateLimitRun m w (rateLimitStep m w st k t).2 reqs).1,
        (rateLimitRun m w (rateLimitStep m w st k t).2 reqs).2) := rfl

/-- Admission phase: starting from an entry `⟨c, R⟩`, a batch of
requests from the same key, all inside the window and never pushing the
count past the maximum, is fully admitted and just accumulates the
count. -/
theorem rateLimitRun_within (m w : Nat) (k : List Char) (ts : List Nat)
    (c R : Nat) (st : RLState) (hst : st k = some ⟨c, R⟩)
    (hwin : ∀ t ∈ ts, t ≤ R) (hcnt : c + ts.length ≤ m) (hc : 1 ≤ c) :
    (rateLimitRun m w st (ts.map (fun t => (k, t)))).1 =
        List.replicate ts.length .admitted ∧
      (rateLimitRun m w st (ts.map (fun t => (k, t)))).2 k = some ⟨c + ts.length, R⟩ := by
  induction ts generalizing st c with
  | nil => simpa [rateLimitRun] using hst
  | cons t ts ih =>
    have hwin' : ∀ u ∈ ts, u ≤ R := fun u hu => hwin u (List.mem_cons_of_mem _ hu)
    have ht : t ≤ R := hwin t (List.mem_cons_self _ _)
    have hstep : rateLimitStep m w st k t =
        (.admitted, updateState st k ⟨c + 1, R⟩) := by
      have h1 : ¬ t > R := by omega
      have h2 : ¬ c + 1 > m := by simp at hcnt; omega
      simp [rateLimitStep, hst, h1, h2]
    have hcnt' : (c + 1) + ts.length ≤ m := by simp at hcnt; omega
    have ih' := ih (c + 1) (updateState st k ⟨c + 1, R⟩)
      (updateState_same st k ⟨c + 1, R⟩) hwin' hcnt' (by omega)
    rw [List.map_cons, rateLimitRun_cons, hstep]
    refine ⟨?_, ?_⟩
    · simp only [ih'.1, List.length_cons, List.replicate_succ]
    · rw [ih'.2, List.length_cons]
      have harith : c + 1 + ts.length = c + (ts.length + 1) := by omega
      rw [harith]

/-- C4: with the default window (60000 ms) and maximum (10), from a
fresh key an initial request at `t₀` followed by ten further requests
inside the window yields ten admissions and then a denial of the 11th
request; and the first request after the window has elapsed is admitted
again and starts a fresh window with count 1. -/
theorem c4_rate_limiter (k : List Char) (st₀ : RLState) (t₀ : Nat) (ts : List Nat)
    (tlate : Nat) (hfresh : st₀ k = none) (hlen : ts.length = 10)
    (hwin : ∀ t ∈ ts, t ≤ t₀ + 60000) (hlate : t₀ + 60000 < tlate) :
    (rateLimitRun 10 60000 st₀ ((t₀ :: ts).map (fun t => (k, t)))).1 =
        List.replicate 10 .admitted ++ [.denied] ∧
      (rateLimitStep 10 60000
          (rateLimitRun 10 60000 st₀ ((t₀ :: ts).map (fun t => (k, t)))).2 k tlate).1 =
        .admitted ∧
      (rateLimitStep 10 60000
          (rateLimitRun 10 60000 st₀ ((t₀ :: ts).map (fun t => (k, t)))).2 k tlate).2 k =
        some ⟨1, tlate + 60000⟩ := by
  -- split the ten in-window requests into the nine admitted ones and the denied one
  obtain ⟨t11, hsplit⟩ : ∃ t11, ts.drop 9 = [t11] := by
    have h9 : (ts.drop 9).length = 1 := by rw [List.length_drop, hlen]
    match hd : ts.drop 9 with
    | [t] => exact ⟨t, rfl⟩
    | [] => rw [hd] at h9; simp at h9
    | a :: b :: r => rw [hd] at h9; simp at h9
  have hts : ts = ts.take 9 ++ [t11] := by rw [← hsplit, List.take_append_drop]
  have hlen9 : (ts.take 9).length = 9 := by simp [List.length_take, hlen]
  have hstep0 : rateLimitStep 10 60000 st₀ k t₀ =
      (.admitted, updateState st₀ k ⟨1, t₀ + 60000⟩) := by
    simp [rateLimitStep, hfresh]
  have hwin9 : ∀ t ∈ ts.take 9, t ≤ t₀ + 60000 :=
    fun t ht => hwin t (List.mem_of_mem_take ht)
  have h11 : t11 ≤ t₀ + 60000 := by
    refine hwin t11 ?_
    rw [hts]
    exact List.mem_append_right _ (List.mem_singleton_self _)
  have hrun9 := rateLimitRun_within 10 60000 k (ts.take 9) 1 (t₀ + 60000)
    (updateState st₀ k ⟨1, t₀ + 60000⟩) (updateState_same _ _ _) hwin9
    (by rw [hlen9]) (le_refl 1)
  set st₉ := (rateLimitRun 10 60000 (updateState st₀ k ⟨1, t₀ + 60000⟩)
    ((ts.take 9).map (fun t => (k, t)))).2 with hst9
  have hst9k : st₉ k = some ⟨10, t₀ + 60000⟩ := by
    have := hrun9.2
    rw [hlen9] at this
    exact this
  have hstep11 : rateLimitStep 10 60000 st₉ k t11 =
      (.denied, updateState st₉ k ⟨11, t₀ + 60000⟩) := by
    have h1 : ¬ t11 > t₀ + 60000 := by omega
    simp [rateLimitStep, hst9k, h1]
  have hmap : (t₀ :: ts).map (fun t => (k, t)) =
      (k, t₀) :: ((ts.take 9).map (fun t => (k, t)) ++ [(k, t11)]) := by
    nth_rewrite 1 [hts]
    simp
  have happ : ∀ (st : RLState) (l₁ l₂ : List (List Char × Nat)),
      rateLimitRun 10 60000 st (l₁ ++ l₂) =
        ((rateLimitRun 10 60000 st l₁).1 ++
            (rateLimitRun 10 60000 (rateLimitRun 10 60000 st l₁).2 l₂).1,
          (rateLimitRun 10 60000 (rateLimitRun 10 60000 st l₁).2 l₂).2) := by
    intro st l₁ l₂
    induction l₁ generalizing st with
    | nil => simp [rateLimitRun]
    | cons kt reqs ih =>
      obtain ⟨k', t'⟩ := kt
      rw [List.cons_append, rateLimitRun_cons, rateLimitRun_cons, ih]
      simp
  have hfinal :
      (rateLimitRun 10 60000 st₀ ((t₀ :: ts).map (fun t => (k, t)))).1 =
          List.replicate 10 .admitted ++ [.denied] ∧
        (rateLimitRun 10 60000 st₀ ((t₀ :: ts).map (fun t => (k, t)))).2 k =
          some ⟨11, t₀ + 60000⟩ := by
    rw [hmap, rateLimitRun_cons, hstep0]
    simp only
    rw [happ]
    constructor
    · rw [hrun9.1, hlen9]
      simp only [rateLimitRun_cons, hstep11, rateLimitRun]
      rfl
    · simp only [rateLimitRun_cons, hstep11, rateLimitRun]
      exact updateState_same _ _ _
  have hlast := hfinal.2
  simp only [List.map_cons] at hlast
  refine ⟨hfinal.1, ?_, ?_⟩
  · simp [rateLimitStep, hlast, hlate]
  · simp [rateLimitStep, hlast, hlate, updateState_same]

/-- Witness for C4: key `"a"`, all eleven requests at time 0, late
request at 60001. -/
theorem c4_witness :
    ((fun _ => none : RLState) ("a").toList = none ∧
        (List.replicate 10 0).length = 10 ∧ (0 : Nat) + 60000 < 60001) ∧
      (rateLimitRun 10 60000 (fun _ => none)
          ((0 :: List.replicate 10 0).map (fun t => (("a").toList, t)))).1 =
        List.replicate 10 .admitted ++ [.denied] :=
  ⟨⟨rfl, by simp, by decide⟩,
    (c4_rate_limiter ("a").toList (fun _ => none) 0 (List.replicate 10 0) 60001 rfl
      (by simp) (by intro t ht; simp at ht; omega) (by decide)).1⟩

/-! ## C3: oversized image payloads are rejected before any external call -/

theorem startsWithL_marker_A (xs : List Char) :
    startsWithL b64Marker ('A' :: xs) = false := rfl

theorem takeToMarker_replA (n : Nat) :
    takeToMarker (List.replicate n 'A') = List.replicate n 'A' := by
  induction n with
  | zero => rfl
  | succ n ih => rw [List.replicate_succ]; simp [takeToMarker, startsWithL_marker_A, ih]

theorem base64Segment_oversized :
    base64Segment (("data:image/png;base64,").toList ++ List.replicate 14000000 'A') =
      List.replicate 14000000 'A' := by
  have h1 : dropAfterMarker (("data:image/png;base64,").toList ++ List.replicate 14000000 'A') =
      some (List.replicate 14000000 'A') := rfl
  unfold base64Segment
  rw [h1]
  exact takeToMarker_replA 14000000

theorem oversized_witness_size :
    (base64Segment (("data:image/png;base64,").toList ++ List.replicate 14000000 'A')).length * 3 >
      4 * maxImageSize := by
  rw [base64Segment_oversized, List.length_replicate]
  simp [maxImageSize]

/-- C3: for every generation request whose image field is a string with
estimated decoded size (base64 length × 3/4) exceeding the 10 MiB cap,
the handler rejects with HTTP 400 and the external generation call is
never attempted (for every configuration of the API key and every
prompt field). -/
theorem c3_oversized_image_rejected (b : GenerateBody) (hasApiKey : Bool) (s : List Char)
    (him : b.imageDataURL = .vStr s)
    (hsize : (base64Segment s).length * 3 > 4 * maxImageSize) :
    (∃ e, generateHandler (some b) hasApiKey = .reject 400 e) ∧
      ∀ img p, generateHandler (some b) hasApiKey ≠ .callGeneration img p := by
  have hne : s ≠ [] := by
    intro h
    rw [h] at hsize
    simp [base64Segment, dropAfterMarker, maxImageSize] at hsize
  have hmark : includesB64 s = true := by
    by_contra hmark
    have hnone : dropAfterMarker s = none := by
      cases hd : dropAfterMarker s with
      | none => rfl
      | some v => rw [includesB64, hd] at hmark; simp at hmark
    rw [base64Segment, hnone] at hsize
    simp [maxImageSize] at hsize
  have main : ∃ e, generateHandler (some b) hasApiKey = .reject 400 e := by
    by_cases hp : (b.prompt.truthy && !b.prompt.isString) = true
    · refine ⟨"Invalid prompt. Must be a string.", ?_⟩
      simp [generateHandler, him, List.isEmpty_iff, hne, hp]
    · rw [Bool.not_eq_true] at hp
      by_cases hpre : startsWithL dataImageMark s = true
      · refine ⟨"Image too large. Maximum size is 10MB", ?_⟩
        simp [generateHandler, him, List.isEmpty_iff, hne, hp, validateImageDataURL,
          hpre, hmark, hsize]
      · rw [Bool.not_eq_true] at hpre
        refine ⟨"Invalid image format. Must be a data URL starting with \"data:image/\"", ?_⟩
        simp [generateHandler, him, List.isEmpty_iff, hne, hp, validateImageDataURL, hpre]
  obtain ⟨e, he⟩ := main
  refine ⟨⟨e, he⟩, ?_⟩
  intro img p
  rw [he]
  simp

/-- Witness for C3: a syntactically valid `data:image/png;base64,` URL
whose base64 part has 14,000,000 characters (estimated decoded size
10.5 MB > 10 MiB) is rejected with HTTP 400. -/
theorem c3_witness :
    ((base64Segment (("data:image/png;base64,").toList ++ List.replicate 14000000 'A')).length * 3 >
        4 * maxImageSize) ∧
      ∃ e, generateHandler
          (some ⟨.vStr (("data:image/png;base64,").toList ++ List.replicate 14000000 'A'), .vUndef⟩)
          true = .reject 400 e :=
  ⟨oversized_witness_size,
    (c3_oversized_image_rejected
      ⟨.vStr (("data:image/png;base64,").toList ++ List.replicate 14000000 'A'), .vUndef⟩
      true (("data:image/png;base64,").toList ++ List.replicate 14000000 'A')
      rfl oversized_witness_size).1⟩

/-! ## C7: the deploy handler enforces no 2 MiB size cap on `code` -/

/-- C7 counterexample: a deployment request whose `code` is a string of
2,200,000 characters (well over the claimed 2 MiB cap) is not rejected:
validation passes and the deployment call is attempted with it. -/
theorem c7_counterexample :
    2 * 1024 * 1024 < (List.replicate 2200000 'A').length ∧
      deployHandler (some ⟨.vStr (List.replicate 2200000 'A'), .vUndef, .vUndef, .vUndef⟩) true
          ("user1234").toList ("k3x").toList =
        .callDeployment (List.replicate 2200000 'A') defaultComponentName
          (autoProjectName ("user1234").toList ("k3x").toList) .next := by
  constructor
  · rw [List.length_replicate]; norm_num
  · rfl

/-- C7 (amended): the deploy handler validates only that `code` is a
non-empty string — there is no size cap, so a code string of any length
(in particular above 2 MiB) passes validation and the deployment call
is attempted with it verbatim. -/
theorem c7_no_size_cap_amended (c userId nowBase36 : List Char) (hne : c ≠ []) :
    deployHandler (some ⟨.vStr c, .vUndef, .vUndef, .vUndef⟩) true userId nowBase36 =
      .callDeployment c defaultComponentName (autoProjectName userId nowBase36) .next := by
  simp [deployHandler, List.isEmpty_iff, hne, JSValue.truthy, JSValue.isString,
    stringOrElse, toFramework, isFrameworkValue]

/-- Witness for C7 (amended) at a one-character code string. -/
theorem c7_witness :
    (("x").toList ≠ ([] : List Char)) ∧
      deployHandler (some ⟨.vStr ("x").toList, .vUndef, .vUndef, .vUndef⟩) true
          ("u").toList ("t").toList =
        .callDeployment ("x").toList defaultComponentName
          (autoProjectName ("u").toList ("t").toList) .next :=
  ⟨by decide, c7_no_size_cap_amended ("x").toList ("u").toList ("t").toList (by decide)⟩

/-! ## C8: validation of optional fields only fires on truthy values -/

/-- C8 counterexample: the optional `prompt` field present with the
falsy non-string value `0` is not rejected — validation passes and the
generation call is attempted with it. -/
theorem c8_counterexample :
    (JSValue.vNum 0).isString = false ∧
      generateHandler (some ⟨.vStr ("data:image/png;base64,AAAA").toList, .vNum 0⟩) true =
        .callGeneration ("data:image/png;base64,AAAA").toList (.vNum 0) := by
  exact ⟨rfl, rfl⟩

/-- C8 (amended): an optional field that is present, truthy and not a
string is rejected with HTTP 400 naming the offending field
(`prompt` on generation; `componentName` and `projectName` on
deployment); falsy non-string values are treated as absent instead. -/
theorem c8_truthy_nonstring_rejected_amended (gb : GenerateBody) (hasApiKey : Bool)
    (s : List Char) (db : DeployBody) (hasDeployToken : Bool) (userId nowBase36 c : List Char) :
    (gb.imageDataURL = .vStr s → s ≠ [] →
      gb.prompt.truthy = true → gb.prompt.isString = false →
      generateHandler (some gb) hasApiKey = .reject 400 "Invalid prompt. Must be a string.") ∧
    (db.code = .vStr c → c ≠ [] →
      db.componentName.truthy = true → db.componentName.isString = false →
      deployHandler (some db) hasDeployToken userId nowBase36 =
        .reject 400 "Invalid componentName. Must be a string.") ∧
    (db.code = .vStr c → c ≠ [] →
      (db.componentName.truthy && !db.componentName.isString) = false →
      db.projectName.truthy = true → db.projectName.isString = false →
      deployHandler (some db) hasDeployToken userId nowBase36 =
        .reject 400 "Invalid projectName. Must be a string.") := by
  refine ⟨?_, ?_, ?_⟩
  · intro him hne hpt hps
    simp [generateHandler, him, List.isEmpty_iff, hne, hpt, hps]
  · intro hc hne hct hcs
    simp [deployHandler, hc, List.isEmpty_iff, hne, hct, hcs]
  · intro hc hne hcomp hpt hps
    simp [deployHandler, hc, List.isEmpty_iff, hne, hcomp, hpt, hps]

/-- Witness for C8 (amended): `prompt = 7`, `componentName = true` and
`projectName = 5` are each rejected with the field-specific message. -/
theorem c8_witness :
    generateHandler (some ⟨.vStr ("data:image/png;base64,AAAA").toList, .vNum 7⟩) true =
        .reject 400 "Invalid prompt. Must be a string." ∧
      deployHandler (some ⟨.vStr ("x").toList, .vBool true, .vUndef, .vUndef⟩) true
          ("u").toList ("t").toList =
        .reject 400 "Invalid componentName. Must be a string." ∧
      deployHandler (some ⟨.vStr ("x").toList, .vUndef, .vNum 5, .vUndef⟩) true
          ("u").toList ("t").toList =
        .reject 400 "Invalid projectName. Must be a string." :=
  ⟨(c8_truthy_nonstring_rejected_amended
      ⟨.vStr ("data:image/png;base64,AAAA").toList, .vNum 7⟩ true
      ("data:image/png;base64,AAAA").toList
      ⟨.vStr ("x").toList, .vBool true, .vUndef, .vUndef⟩ true
      ("u").toList ("t").toList ("x").toList).1
      rfl (by decide) rfl rfl,
    (c8_truthy_nonstring_rejected_amended
      ⟨.vStr ("data:image/png;base64,AAAA").toList, .vNum 7⟩ true
      ("data:image/png;base64,AAAA").toList
      ⟨.vStr ("x").toList, .vBool true, .vUndef, .vUndef⟩ true
      ("u").toList ("t").toList ("x").toList).2.1
      rfl (by decide) rfl rfl,
    (c8_truthy_nonstring_rejected_amended
      ⟨.vStr ("data:image/png;base64,AAAA").toList, .vNum 7⟩ true
      ("data:image/png;base64,AAAA").toList
      ⟨.vStr ("x").toList, .vUndef, .vNum 5, .vUndef⟩ true
      ("u").toList ("t").toList ("x").toList).2.2
      rfl (by decide) rfl rfl rfl⟩

/-! ## C5 and C6: the scaffolded file set -/

theorem compPath_head (name : List Char) :
    ((("components/").toList ++ name ++ (".tsx").toList).headD ' ') = 'c' := rfl

theorem compPathR_head (name : List Char) :
    ((("src/components/").toList ++ name ++ (".tsx").toList).headD ' ') = 's' := rfl

theorem compPathR_nth (name : List Char) :
    (((("src/components/").toList ++ name ++ (".tsx").toList).drop 4).headD ' ') = 'c' := rfl

theorem compPath_inj (name u : List Char)
    (h : ("components/").toList ++ name ++ (".tsx").toList =
      ("components/").toList ++ u ++ (".tsx").toList) : name = u := by
  rw [List.append_assoc, List.append_assoc] at h
  exact List.append_cancel_right (List.append_cancel_left h)

theorem srcComponents_not_ui (name : List Char) :
    ("src/components/").toList ++ name ++ (".tsx").toList ∉ uiPrimitivePaths := by
  intro hmem
  have hc := compPathR_head name
  simp only [uiPrimitivePaths, List.mem_cons, List.not_mem_nil, or_false] at hmem
  rcases hmem with h | h | h | h | h | h | h <;> rw [h] at hc <;>
    exact absurd hc (by decide)

/-- C5 counterexample: for framework `react` the Project Scaffolder
emits exactly five files — manifest, the generated component, the entry
`App.tsx`, a stylesheet and the bootstrap `index.tsx` — and none of
them is a boilerplate UI-primitive file, contradicting the claim that
the file set always contains one or more UI primitives. -/
theorem c5_counterexample :
    ((deploymentFiles ("x").toList ("Comp").toList ("demo").toList .react).map
        (fun f => f.file) =
      [("package.json").toList, ("src/components/Comp.tsx").toList, ("src/App.tsx").toList,
       ("src/index.css").toList, ("src/index.tsx").toList]) ∧
      ∀ f ∈ deploymentFiles ("x").toList ("Comp").toList ("demo").toList .react,
        f.file ∉ uiPrimitivePaths := by
  constructor
  · rfl
  · decide

/-- C5 (amended): for framework `next` the file set contains the
dependency manifest, a styling configuration, the seven boilerplate
UI-primitive files, an entry page that imports the generated component
by its declared name, and the component source verbatim at
`components/<name>.tsx`; for framework `react` it contains the
manifest, a base stylesheet, an entry `App.tsx` that imports the
component by name, and the component verbatim at
`src/components/<name>.tsx`, but no UI-primitive files and no separate
styling configuration. -/
theorem c5_scaffold_contents_amended (code name proj : List Char) :
    ((deploymentFiles code name proj .next).map (fun f => f.file) =
      [("package.json").toList, ("tsconfig.json").toList, ("next.config.js").toList,
       ("app/layout.tsx").toList, ("app/page.tsx").toList, ("app/globals.css").toList,
       ("tailwind.config.js").toList, ("postcss.config.js").toList, ("lib/utils.ts").toList,
       ("components/ui/button.tsx").toList, ("components/ui/card.tsx").toList,
       ("components/ui/input.tsx").toList, ("components/ui/label.tsx").toList,
       ("components/ui/badge.tsx").toList, ("components/ui/progress.tsx").toList,
       ("components/ui/slider.tsx").toList,
       ("components/").toList ++ name ++ (".tsx").toList]) ∧
    ((deploymentFiles code name proj .next)[16]? =
      some ⟨("components/").toList ++ name ++ (".tsx").toList, code⟩) ∧
    ((deploymentFiles code name proj .next)[4]? =
      some ⟨("app/page.tsx").toList, appPageData name⟩) ∧
    (∃ rest, appPageData name =
      ("import ").toList ++ name ++ (" from \x27@/components/").toList ++ name ++ rest) ∧
    ((deploymentFiles code name proj .react).map (fun f => f.file) =
      [("package.json").toList, ("src/components/").toList ++ name ++ (".tsx").toList,
       ("src/App.tsx").toList, ("src/index.css").toList, ("src/index.tsx").toList]) ∧
    ((deploymentFiles code name proj .react)[1]? =
      some ⟨("src/components/").toList ++ name ++ (".tsx").toList, code⟩) ∧
    ((deploymentFiles code name proj .react)[2]? =
      some ⟨("src/App.tsx").toList, srcAppData name⟩) ∧
    (∃ rest, srcAppData name =
      ("import React from \x27react\x27;\nimport ").toList ++ name ++
        (" from \x27./components/").toList ++ name ++ rest) ∧
    (∀ f ∈ deploymentFiles code name proj .react, f.file ∉ uiPrimitivePaths) := by
  refine ⟨rfl, rfl, rfl,
    ⟨("\x27\n\nexport default function Home() \x7b\n  return (\n    <main className=\"min-h-screen bg-background py-6 flex flex-col justify-center sm:py-12\">\n      <div className=\"flex flex-col items-center justify-center w-full flex-1 px-4 sm:px-20\">\n        <div className=\"w-full max-w-4xl\">\n          <").toList ++ (name ++ (" />\n        </div>\n        <p className=\"mt-8 text-sm text-muted-foreground\">\n          Generated using v0\n        </p>\n      </div>\n    </main>\n  )\n\x7d").toList),
      by simp only [appPageData, List.append_assoc]⟩, rfl, rfl, rfl,
    ⟨("\x27;\nimport \x27./index.css\x27;\n\nfunction App() \x7b\n  return (\n    <div className=\"min-h-screen bg-gray-100 py-6 flex flex-col justify-center sm:py-12\">\n      <main className=\"flex flex-col items-center justify-center w-full flex-1 px-4 sm:px-20 text-center\">\n        <h1 className=\"text-3xl font-bold mb-8\">Generated Component</h1>\n        <div className=\"w-full max-w-4xl\">\n          <").toList ++ (name ++ (" />\n        </div>\n        <p className=\"mt-8 text-sm text-gray-500\">\n          Generated using Vercel v0 model\n        </p>\n      </main>\n    </div>\n  );\n\x7d\n\nexport default App;").toList),
      by simp only [srcAppData, List.append_assoc]⟩, ?_⟩
  intro f hf
  simp only [deploymentFiles, List.mem_cons, List.not_mem_nil, or_false] at hf
  rcases hf with h | h | h | h | h <;> subst h
  · exact (by decide : ("package.json").toList ∉ uiPrimitivePaths)
  · exact srcComponents_not_ui name
  · exact (by decide : ("src/App.tsx").toList ∉ uiPrimitivePaths)
  · exact (by decide : ("src/index.css").toList ∉ uiPrimitivePaths)
  · exact (by decide : ("src/index.tsx").toList ∉ uiPrimitivePaths)

/-- C6 counterexample: with `componentName = "ui/button"` and framework
`next`, the derived component path `components/ui/button.tsx` collides
with the boilerplate button primitive, so the paths are not pairwise
distinct. -/
theorem c6_counterexample :
    ¬ ((deploymentFiles ("x").toList ("ui/button").toList ("demo").toList .next).map
        (fun f => f.file)).Nodup := by
  decide

/-- C6 (amended): the paths of the scaffolded file set are pairwise
distinct for every input, except that for framework `next` the
component name must not be one of the seven `ui/<primitive>` names
whose derived path collides with a boilerplate UI-primitive path. -/
theorem c6_paths_nodup_amended (code name proj : List Char) (fw : Framework)
    (hname : fw = .next → name ∉ uiCollisionNames) :
    ((deploymentFiles code name proj fw).map (fun f => f.file)).Nodup := by
  cases fw with
  | next =>
    have hn := hname rfl
    have hsplit : (deploymentFiles code name proj .next).map (fun f => f.file) =
        [("package.json").toList, ("tsconfig.json").toList, ("next.config.js").toList,
         ("app/layout.tsx").toList, ("app/page.tsx").toList, ("app/globals.css").toList,
         ("tailwind.config.js").toList, ("postcss.config.js").toList, ("lib/utils.ts").toList,
         ("components/ui/button.tsx").toList, ("components/ui/card.tsx").toList,
         ("components/ui/input.tsx").toList, ("components/ui/label.tsx").toList,
         ("components/ui/badge.tsx").toList, ("components/ui/progress.tsx").toList,
         ("components/ui/slider.tsx").toList] ++
        [("components/").toList ++ name ++ (".tsx").toList] := rfl
    rw [hsplit]
    refine List.Nodup.append (by decide) (by simp) ?_
    intro a ha hacp
    rw [List.mem_singleton] at hacp
    subst hacp
    have hc := compPath_head name
    simp only [List.mem_cons, List.not_mem_nil, or_false] at ha
    rcases ha with h | h | h | h | h | h | h | h | h | h | h | h | h | h | h | h
    · rw [h] at hc; exact absurd hc (by decide)
    · rw [h] at hc; exact absurd hc (by decide)
    · rw [h] at hc; exact absurd hc (by decide)
    · rw [h] at hc; exact absurd hc (by decide)
    · rw [h] at hc; exact absurd hc (by decide)
    · rw [h] at hc; exact absurd hc (by decide)
    · rw [h] at hc; exact absurd hc (by decide)
    · rw [h] at hc; exact absurd hc (by decide)
    · rw [h] at hc; exact absurd hc (by decide)
    · exact hn (by rw [compPath_inj name ("ui/button").toList (by rw [h]; decide)]; decide)
    · exact hn (by rw [compPath_inj name ("ui/card").toList (by rw [h]; decide)]; decide)
    · exact hn (by rw [compPath_inj name ("ui/input").toList (by rw [h]; decide)]; decide)
    · exact hn (by rw [compPath_inj name ("ui/label").toList (by rw [h]; decide)]; decide)
    · exact hn (by rw [compPath_inj name ("ui/badge").toList (by rw [h]; decide)]; decide)
    · exact hn (by rw [compPath_inj name ("ui/progress").toList (by rw [h]; decide)]; decide)
    · exact hn (by rw [compPath_inj name ("ui/slider").toList (by rw [h]; decide)]; decide)
  | react =>
    have hne1 : ("package.json").toList ≠
        ("src/components/").toList ++ name ++ (".tsx").toList := by
      intro h
      have hc := compPathR_head name
      rw [← h] at hc
      exact absurd hc (by decide)
    have hne3 : ("src/components/").toList ++ name ++ (".tsx").toList ≠
        ("src/App.tsx").toList := by
      intro h
      have hc := compPathR_nth name
      rw [h] at hc
      exact absurd hc (by decide)
    have hne4 : ("src/components/").toList ++ name ++ (".tsx").toList ≠
        ("src/index.css").toList := by
      intro h
      have hc := compPathR_nth name
      rw [h] at hc
      exact absurd hc (by decide)
    have hne5 : ("src/components/").toList ++ name ++ (".tsx").toList ≠
        ("src/index.tsx").toList := by
      intro h
      have hc := compPathR_nth name
      rw [h] at hc
      exact absurd hc (by decide)
    have hshape : (deploymentFiles code name proj .react).map (fun f => f.file) =
        [("package.json").toList, ("src/components/").toList ++ name ++ (".tsx").toList,
         ("src/App.tsx").toList, ("src/index.css").toList, ("src/index.tsx").toList] := rfl
    rw [hshape]
    refine List.nodup_cons.mpr ⟨?_, List.nodup_cons.mpr ⟨?_, by decide⟩⟩
    · simp only [List.mem_cons, List.not_mem_nil, or_false]
      push_neg
      exact ⟨hne1, by decide, by decide, by decide⟩
    · simp only [List.mem_cons, List.not_mem_nil, or_false]
      push_neg
      exact ⟨hne3, hne4, hne5⟩

/-- Witness for C6 (amended): with component name `Comp` the `next` and
`react` path sets are both duplicate-free. -/
theorem c6_witness :
    ((Framework.next = Framework.next → ("Comp").toList ∉ uiCollisionNames) ∧
        (Framework.react = Framework.next → ("Comp").toList ∉ uiCollisionNames)) ∧
      ((deploymentFiles ("x").toList ("Comp").toList ("demo").toList .next).map
          (fun f => f.file)).Nodup ∧
      ((deploymentFiles ("x").toList ("Comp").toList ("demo").toList .react).map
          (fun f => f.file)).Nodup :=
  ⟨⟨fun _ => by decide, fun h => by exact absurd h (by decide)⟩,
    c6_paths_nodup_amended ("x").toList ("Comp").toList ("demo").toList .next
      (fun _ => by decide),
    c6_paths_nodup_amended ("x").toList ("Comp").toList ("demo").toList .react
      (fun h => by exact absurd h (by decide))⟩

/-! ## C1 and C9: the Output Sanitizer -/

theorem ciStarts_false_of_ciOccurs_false (pat s : List Char)
    (h : ciOccurs pat s = false) : ciStarts pat s = false := by
  cases s with
  | nil => simp [ciOccurs] at h; simp [h]
  | cons c rest =>
    simp only [ciOccurs, Bool.or_eq_false_iff] at h
    exact h.1

theorem ciOccurs_false_tail (pat : List Char) (c : Char) (rest : List Char)
    (h : ciOccurs pat (c :: rest) = false) : ciOccurs pat rest = false := by
  simp only [ciOccurs, Bool.or_eq_false_iff] at h
  exact h.2

theorem openTagTail_none (s : List Char) (h : ciOccurs openThinking s = false) :
    openTagTail s = none := by
  simp [openTagTail, ciStarts_false_of_ciOccurs_false _ _ h]

theorem removeSpansF_id (s : List Char) :
    ∀ fuel, ciOccurs openThinking s = false → removeSpansF fuel s = s := by
  induction s with
  | nil => intro fuel _; cases fuel <;> rfl
  | cons c rest ih =>
    intro fuel h
    cases fuel with
    | zero => rfl
    | succ f =>
      simp [removeSpansF, openTagTail_none _ h, ih f (ciOccurs_false_tail _ _ _ h)]

theorem removeSpans_id (s : List Char) (h : ciOccurs openThinking s = false) :
    removeSpans s = s := removeSpansF_id s s.length h

theorem removeOpenTagsF_id (s : List Char) :
    ∀ fuel, ciOccurs openThinking s = false → removeOpenTagsF fuel s = s := by
  induction s with
  | nil => intro fuel _; cases fuel <;> rfl
  | cons c rest ih =>
    intro fuel h
    cases fuel with
    | zero => rfl
    | succ f =>
      simp [removeOpenTagsF, openTagTail_none _ h, ih f (ciOccurs_false_tail _ _ _ h)]

theorem removeOpenTags_id (s : List Char) (h : ciOccurs openThinking s = false) :
    removeOpenTags s = s := removeOpenTagsF_id s s.length h

theorem dropToClose_none (s : List Char) (h : ciOccurs closeThinking s = false) :
    dropToClose s = none := by
  induction s with
  | nil => rfl
  | cons c rest ih =>
    simp [dropToClose, ciStarts_false_of_ciOccurs_false _ _ h,
      ih (ciOccurs_false_tail _ _ _ h)]

theorem dropPreamble_id (s : List Char) (h : ciOccurs closeThinking s = false) :
    dropPreamble s = s := by
  simp [dropPreamble, dropToClose_none s h]

theorem splitLines_ne_nil (s : List Char) : splitLines s ≠ [] := by
  cases s with
  | nil => simp [splitLines]
  | cons c rest =>
    unfold splitLines
    split
    · simp
    · split <;> simp

theorem splitLines_no_newline (s : List Char) : ∀ l ∈ splitLines s, '\n' ∉ l := by
  induction s with
  | nil =>
    intro l hl
    simp only [splitLines, List.mem_singleton] at hl
    subst hl
    simp
  | cons c rest ih =>
    intro l hl
    unfold splitLines at hl
    by_cases hc : c = '\n'
    · rw [if_pos (by simp [hc])] at hl
      rcases List.mem_cons.mp hl with h | h
      · subst h; simp
      · exact ih l h
    · rw [if_neg (by simp [hc])] at hl
      cases hsp : splitLines rest with
      | nil => exact absurd hsp (splitLines_ne_nil rest)
      | cons l0 ls =>
        rw [hsp] at hl
        rcases List.mem_cons.mp hl with h | h
        · subst h
          intro hmem
          rcases List.mem_cons.mp hmem with h' | h'
          · exact hc h'.symm
          · exact ih l0 (by rw [hsp]; exact List.mem_cons_self _ _) h'
        · exact ih l (by rw [hsp]; exact List.mem_cons_of_mem _ h)

theorem joinLines_splitLines (s : List Char) : joinLines (splitLines s) = s := by
  induction s with
  | nil => rfl
  | cons c rest ih =>
    unfold splitLines
    by_cases hc : c = '\n'
    · rw [if_pos (by simp [hc])]
      cases hsp : splitLines rest with
      | nil => exact absurd hsp (splitLines_ne_nil rest)
      | cons l0 ls =>
        show [] ++ '\n' :: joinLines (l0 :: ls) = c :: rest
        rw [← hsp, ih, hc]
        rfl
    · rw [if_neg (by simp [hc])]
      cases hsp : splitLines rest with
      | nil => exact absurd hsp (splitLines_ne_nil rest)
      | cons l0 ls =>
        cases ls with
        | nil =>
          show c :: l0 = c :: rest
          have := ih
          rw [hsp] at this
          simpa [joinLines] using this
        | cons l1 ls' =>
          show (c :: l0) ++ '\n' :: joinLines (l1 :: ls') = c :: rest
          have := ih
          rw [hsp] at this
          simp only [joinLines] at this
          simp [this]

theorem splitLines_of_no_newline (l : List Char) (h : '\n' ∉ l) : splitLines l = [l] := by
  induction l with
  | nil => rfl
  | cons c rest ih =>
    have hc : ¬ c = '\n' := fun hc => h (by rw [hc]; exact List.mem_cons_self _ _)
    have h' : '\n' ∉ rest := fun hm => h (List.mem_cons_of_mem _ hm)
    unfold splitLines
    rw [if_neg (by simp [hc]), ih h']

theorem splitLines_append_newline (l r : List Char) (h : '\n' ∉ l) :
    splitLines (l ++ '\n' :: r) = l :: splitLines r := by
  induction l with
  | nil =>
    show splitLines ('\n' :: r) = [] :: splitLines r
    simp [splitLines]
  | cons c rest ih =>
    have hc : ¬ c = '\n' := fun hc => h (by rw [hc]; exact List.mem_cons_self _ _)
    have h' : '\n' ∉ rest := fun hm => h (List.mem_cons_of_mem _ hm)
    show splitLines (c :: (rest ++ '\n' :: r)) = (c :: rest) :: splitLines r
    simp [splitLines, hc, ih h']

theorem splitLines_joinLines (ls : List (List Char)) (hne : ls ≠ [])
    (hnl : ∀ l ∈ ls, '\n' ∉ l) : splitLines (joinLines ls) = ls := by
  induction ls with
  | nil => exact absurd rfl hne
  | cons l ls' ih =>
    cases ls' with
    | nil =>
      show splitLines (joinLines [l]) = [l]
      simp only [joinLines]
      exact splitLines_of_no_newline l (hnl l (List.mem_cons_self _ _))
    | cons l1 ls'' =>
      show splitLines (l ++ '\n' :: joinLines (l1 :: ls'')) = l :: l1 :: ls''
      rw [splitLines_append_newline _ _ (hnl l (List.mem_cons_self _ _))]
      rw [ih (by simp) (fun x hx => hnl x (List.mem_cons_of_mem _ hx))]

theorem splitLines_fencePass (p : List Char → Bool) (s : List Char) :
    splitLines (fencePass p s) =
      (splitLines s).map (fun l => if p l then [] else l) := by
  unfold fencePass
  apply splitLines_joinLines
  · simp [splitLines_ne_nil]
  · intro l hl
    rcases List.mem_map.mp hl with ⟨l', hl', rfl⟩
    by_cases hp : p l' <;> simp [hp]
    exact splitLines_no_newline s l' hl'

theorem fencePass_id (p : List Char → Bool) (s : List Char)
    (h : ∀ l ∈ splitLines s, p l = false) : fencePass p s = s := by
  unfold fencePass
  have hmap : (splitLines s).map (fun l => if p l then [] else l) = splitLines s := by
    rw [List.map_congr_left (g := fun l => l) (fun l hl => by simp [h l hl])]
    exact List.map_id _
  rw [hmap, joinLines_splitLines]

theorem ws_ne_tick (c : Char) (h : isJsWS c = true) : (c == '`') = false := by
  simp only [isJsWS, Bool.or_eq_true, beq_iff_eq] at h
  rcases h with ((((((h | h) | h) | h) | h) | h) | h) <;> subst h <;> decide

theorem ws_not_alpha (c : Char) (h : isJsWS c = true) : c.isAlpha = false := by
  simp only [isJsWS, Bool.or_eq_true, beq_iff_eq] at h
  rcases h with ((((((h | h) | h) | h) | h) | h) | h) <;> subst h <;> decide

theorem dropWhile_ws_singleton (c : Char) (h : isJsWS c = true) :
    List.dropWhile isJsWS [c] = [] := by
  simp [List.dropWhile, h]

theorem take3_concat (d : List Char) (c : Char) (h : isJsWS c = true) :
    ((d ++ [c]).take 3 == ['`', '`', '`']) = (d.take 3 == ['`', '`', '`']) := by
  rcases d with _ | ⟨x, _ | ⟨y, _ | ⟨z, d'⟩⟩⟩
  · simp [ws_ne_tick c h]
  · simp
  · simp [ws_ne_tick c h]
  · simp [List.take]

theorem isEmpty_dropWS_concat (d : List Char) (c : Char) (h : isJsWS c = true) :
    ((d ++ [c]).dropWhile isJsWS).isEmpty = (d.dropWhile isJsWS).isEmpty := by
  rw [List.dropWhile_append]
  by_cases he : (d.dropWhile isJsWS).isEmpty
  · rw [if_pos he, dropWhile_ws_singleton c h, he]
    rfl
  · rw [if_neg he]
    simp only [Bool.not_eq_true] at he
    rw [he]
    simp [List.isEmpty_iff]

theorem isEmpty_dropAlpha_dropWS_concat (d : List Char) (c : Char) (h : isJsWS c = true) :
    (((d ++ [c]).dropWhile Char.isAlpha).dropWhile isJsWS).isEmpty =
      ((d.dropWhile Char.isAlpha).dropWhile isJsWS).isEmpty := by
  rw [List.dropWhile_append]
  by_cases he : (d.dropWhile Char.isAlpha).isEmpty
  · rw [if_pos he]
    have hca : List.dropWhile Char.isAlpha [c] = [c] := by
      simp [List.dropWhile, ws_not_alpha c h]
    rw [hca, dropWhile_ws_singleton c h]
    rw [List.isEmpty_iff.mp he]
    rfl
  · rw [if_neg he]
    exact isEmpty_dropWS_concat _ c h

theorem fenceOpen_concat_ws (l : List Char) (c : Char) (h : isJsWS c = true) :
    fenceOpenLine (l ++ [c]) = fenceOpenLine l := by
  unfold fenceOpenLine
  rw [List.dropWhile_append]
  by_cases he : (l.dropWhile isJsWS).isEmpty
  · rw [if_pos he, dropWhile_ws_singleton c h, List.isEmpty_iff.mp he]
  · rw [if_neg he, take3_concat _ c h]
    by_cases ht : ((l.dropWhile isJsWS).take 3 == ['`', '`', '`']) = true
    · rw [ht]
      simp only [Bool.true_and]
      have hlen : 3 ≤ (l.dropWhile isJsWS).length := by
        by_contra hlt
        push_neg at hlt
        have := List.take_of_length_le (le_of_lt hlt)
        rw [this] at ht
        have hlen3 : (l.dropWhile isJsWS).length = 3 := by
          have := congrArg List.length (eq_of_beq ht)
          simpa using this
        omega
      rw [List.drop_append_of_le_length hlen]
      exact isEmpty_dropAlpha_dropWS_concat _ c h
    · simp only [Bool.not_eq_true] at ht
      rw [ht]
      simp

theorem fenceClose_concat_ws (l : List Char) (c : Char) (h : isJsWS c = true) :
    fenceCloseLine (l ++ [c]) = fenceCloseLine l := by
  unfold fenceCloseLine
  rw [List.dropWhile_append]
  by_cases he : (l.dropWhile isJsWS).isEmpty
  · rw [if_pos he, dropWhile_ws_singleton c h, List.isEmpty_iff.mp he]
  · rw [if_neg he, take3_concat _ c h]
    by_cases ht : ((l.dropWhile isJsWS).take 3 == ['`', '`', '`']) = true
    · rw [ht]
      simp only [Bool.true_and]
      have hlen : 3 ≤ (l.dropWhile isJsWS).length := by
        by_contra hlt
        push_neg at hlt
        have := List.take_of_length_le (le_of_lt hlt)
        rw [this] at ht
        have hlen3 : (l.dropWhile isJsWS).length = 3 := by
          have := congrArg List.length (eq_of_beq ht)
          simpa using this
        omega
      rw [List.drop_append_of_le_length hlen]
      exact isEmpty_dropWS_concat _ c h
    · simp only [Bool.not_eq_true] at ht
      rw [ht]
      simp

theorem fenceTicks_concat_ws (l : List Char) (c : Char) (h : isJsWS c = true) :
    fenceTicksLine (l ++ [c]) = fenceTicksLine l := by
  unfold fenceTicksLine
  rw [List.dropWhile_append]
  by_cases he : (l.dropWhile isJsWS).isEmpty
  · rw [if_pos he, dropWhile_ws_singleton c h, List.isEmpty_iff.mp he]
  · rw [if_neg he, take3_concat _ c h]

theorem fenceAny_concat_ws (l : List Char) (c : Char) (h : isJsWS c = true) :
    fenceAnyLine (l ++ [c]) = fenceAnyLine l := by
  unfold fenceAnyLine
  rw [fenceOpen_concat_ws _ _ h, fenceClose_concat_ws _ _ h, fenceTicks_concat_ws _ _ h]

theorem fenceAny_cons_ws (c : Char) (l : List Char) (h : isJsWS c = true) :
    fenceAnyLine (c :: l) = fenceAnyLine l := by
  have hd : (c :: l).dropWhile isJsWS = l.dropWhile isJsWS := by
    simp [List.dropWhile, h]
  unfold fenceAnyLine fenceOpenLine fenceCloseLine fenceTicksLine
  rw [hd]

theorem appendToLast_cons (c : Char) (l : List Char) (l1 : List Char)
    (ls : List (List Char)) :
    appendToLast c (l :: l1 :: ls) = l :: appendToLast c (l1 :: ls) := rfl

theorem splitLines_concat (s : List Char) (c : Char) :
    splitLines (s ++ [c]) =
      if c = '\n' then splitLines s ++ [[]] else appendToLast c (splitLines s) := by
  induction s with
  | nil =>
    by_cases hc : c = '\n'
    · simp [hc, splitLines, appendToLast]
    · simp [hc, splitLines, appendToLast]
  | cons x rest ih =>
    show splitLines (x :: (rest ++ [c])) = _
    by_cases hx : x = '\n'
    · subst hx
      by_cases hc : c = '\n'
      · subst hc
        simp [splitLines, ih]
      · simp only [splitLines, beq_self_eq_true, if_true, ih, if_neg hc]
        cases hsp : splitLines rest with
        | nil => exact absurd hsp (splitLines_ne_nil rest)
        | cons l0 ls => rfl
    · by_cases hc : c = '\n'
      · rw [if_pos hc]
        have hx' : (x == '\n') = false := by simp [hx]
        simp only [splitLines, hx', Bool.false_eq_true, if_false, ih, if_pos hc]
        cases hsp : splitLines rest with
        | nil => exact absurd hsp (splitLines_ne_nil rest)
        | cons l0 ls => rfl
      · rw [if_neg hc]
        have hx' : (x == '\n') = false := by simp [hx]
        simp only [splitLines, hx', Bool.false_eq_true, if_false, ih, if_neg hc]
        cases hsp : splitLines rest with
        | nil => exact absurd hsp (splitLines_ne_nil rest)
        | cons l0 ls =>
          cases ls with
          | nil => rfl
          | cons l1 ls' => rfl

theorem fenceFree_of_appendToLast (c : Char) (hws : isJsWS c = true) :
    ∀ L : List (List Char),
      (∀ l ∈ appendToLast c L, fenceAnyLine l = false) →
        ∀ l ∈ L, fenceAnyLine l = false := by
  intro L
  induction L with
  | nil => intro _ l hl; exact absurd hl (List.not_mem_nil l)
  | cons l0 ls ih =>
    intro h l hl
    cases ls with
    | nil =>
      rcases List.mem_singleton.mp hl with rfl
      have := h (l ++ [c]) (by simp [appendToLast])
      rw [fenceAny_concat_ws _ _ hws] at this
      exact this
    | cons l1 ls' =>
      rcases List.mem_cons.mp hl with rfl | hmem
      · exact h l (by rw [appendToLast_cons]; exact List.mem_cons_self _ _)
      · exact ih (fun x hx => h x (by rw [appendToLast_cons]; exact List.mem_cons_of_mem _ hx))
          l hmem

theorem linesOK_tail (c : Char) (s : List Char) (hws : isJsWS c = true)
    (h : linesOK (c :: s)) : linesOK s := by
  intro l hl
  by_cases hc : c = '\n'
  · apply h l
    subst hc
    show l ∈ splitLines ('\n' :: s)
    simp only [splitLines, beq_self_eq_true, if_true]
    exact List.mem_cons_of_mem _ hl
  · have hc' : (c == '\n') = false := by simp [hc]
    cases hsp : splitLines s with
    | nil => exact absurd hsp (splitLines_ne_nil s)
    | cons l0 ls =>
      rw [hsp] at hl
      have hlines : splitLines (c :: s) = (c :: l0) :: ls := by
        simp [splitLines, hc', hsp]
      rcases List.mem_cons.mp hl with rfl | hmem
      · have hfa := h (c :: l) (by rw [hlines]; exact List.mem_cons_self _ _)
        rw [fenceAny_cons_ws _ _ hws] at hfa
        exact hfa
      · exact h l (by rw [hlines]; exact List.mem_cons_of_mem _ hmem)

theorem linesOK_dropWhile (s : List Char) (h : linesOK s) :
    linesOK (s.dropWhile isJsWS) := by
  induction s with
  | nil => exact h
  | cons c rest ih =>
    by_cases hc : isJsWS c = true
    · rw [List.dropWhile_cons_of_pos hc]
      exact ih (linesOK_tail c rest hc h)
    · rw [List.dropWhile_cons_of_neg (by simp [hc])]
      exact h

theorem linesOK_dropLast_char (s : List Char) (c : Char) (hws : isJsWS c = true)
    (h : linesOK (s ++ [c])) : linesOK s := by
  intro l hl
  have hconc := splitLines_concat s c
  by_cases hc : c = '\n'
  · rw [if_pos hc] at hconc
    exact h l (by rw [hconc]; exact List.mem_append_left _ hl)
  · rw [if_neg hc] at hconc
    refine fenceFree_of_appendToLast c hws (splitLines s) ?_ l hl
    intro x hx
    exact h x (by rw [hconc]; exact hx)

theorem linesOK_dropSuffix (s : List Char) (w : List Char)
    (hw : ∀ c ∈ w, isJsWS c = true) (h : linesOK (s ++ w)) : linesOK s := by
  induction w using List.reverseRecOn generalizing s with
  | nil => simpa using h
  | append_singleton w' c ih =>
    have h1 : linesOK ((s ++ w') ++ [c]) := by
      rw [List.append_assoc]
      exact h
    have h2 : linesOK (s ++ w') :=
      linesOK_dropLast_char _ c (hw c (by simp)) h1
    exact ih s (fun x hx => hw x (List.mem_append_left _ hx)) h2

theorem linesOK_trimWS (s : List Char) (h : linesOK s) : linesOK (trimWS s) := by
  unfold trimWS
  have ha : linesOK (s.dropWhile isJsWS) := linesOK_dropWhile s h
  set a := s.dropWhile isJsWS with hadef
  have hsplit : a = (a.reverse.dropWhile isJsWS).reverse ++
      (a.reverse.takeWhile isJsWS).reverse := by
    have := List.takeWhile_append_dropWhile (p := isJsWS) (l := a.reverse)
    calc a = a.reverse.reverse := by rw [List.reverse_reverse]
    _ = (a.reverse.takeWhile isJsWS ++ a.reverse.dropWhile isJsWS).reverse := by rw [this]
    _ = (a.reverse.dropWhile isJsWS).reverse ++ (a.reverse.takeWhile isJsWS).reverse := by
        rw [List.reverse_append]
  apply linesOK_dropSuffix _ ((a.reverse.takeWhile isJsWS).reverse)
  · intro c hc
    rw [List.mem_reverse] at hc
    exact List.mem_takeWhile_imp hc
  · rw [← hsplit]
    exact ha

theorem dropWhile_idem (p : Char → Bool) (l : List Char) :
    (l.dropWhile p).dropWhile p = l.dropWhile p := by
  induction l with
  | nil => rfl
  | cons c rest ih =>
    by_cases h : p c = true
    · rw [List.dropWhile_cons_of_pos h]
      exact ih
    · rw [List.dropWhile_cons_of_neg (by simp [h]),
        List.dropWhile_cons_of_neg (by simp [h])]

theorem dropWhile_head_not (p : Char → Bool) (s : List Char) (c : Char) (rest : List Char)
    (h : s.dropWhile p = c :: rest) : p c = false := by
  induction s with
  | nil => simp [List.dropWhile] at h
  | cons x xs ih =>
    by_cases hx : p x = true
    · rw [List.dropWhile_cons_of_pos hx] at h
      exact ih h
    · rw [List.dropWhile_cons_of_neg (by simp [hx])] at h
      cases h
      simpa using hx

theorem trimWS_idem (s : List Char) : trimWS (trimWS s) = trimWS s := by
  unfold trimWS
  set a := s.dropWhile isJsWS with hadef
  set t := (a.reverse.dropWhile isJsWS).reverse with htdef
  have h1 : t.dropWhile isJsWS = t := by
    cases htc : t with
    | nil => rfl
    | cons c t' =>
      have hta : ∃ w, a = c :: (t' ++ w) := by
        refine ⟨(a.reverse.takeWhile isJsWS).reverse, ?_⟩
        have hsplit : a = t ++ (a.reverse.takeWhile isJsWS).reverse := by
          have hh := List.takeWhile_append_dropWhile (p := isJsWS) (l := a.reverse)
          calc a = a.reverse.reverse := by rw [List.reverse_reverse]
          _ = (a.reverse.takeWhile isJsWS ++ a.reverse.dropWhile isJsWS).reverse := by
              rw [hh]
          _ = t ++ (a.reverse.takeWhile isJsWS).reverse := by
              rw [List.reverse_append, htdef]
        rw [htc] at hsplit
        simpa using hsplit
      obtain ⟨w, hw⟩ := hta
      have hcws : isJsWS c = false := dropWhile_head_not isJsWS s c (t' ++ w) (by rw [← hw])
      rw [List.dropWhile_cons_of_neg (by simp [hcws])]
  have h2 : t.reverse.dropWhile isJsWS = t.reverse := by
    rw [htdef, List.reverse_reverse]
    exact dropWhile_idem isJsWS a.reverse
  rw [h1, h2, List.reverse_reverse]

theorem linesOK_fencePasses (u : List Char) :
    linesOK (fencePass fenceTicksLine (fencePass fenceCloseLine
      (fencePass fenceOpenLine u))) := by
  intro l hl
  rw [splitLines_fencePass] at hl
  rcases List.mem_map.mp hl with ⟨l1, hl1, rfl⟩
  rw [splitLines_fencePass] at hl1
  rcases List.mem_map.mp hl1 with ⟨l2, hl2, rfl⟩
  rw [splitLines_fencePass] at hl2
  rcases List.mem_map.mp hl2 with ⟨l3, _, rfl⟩
  by_cases h4 : fenceOpenLine l3 = true
  · rw [if_pos h4, ite_self, ite_self]
    decide
  · rw [if_neg h4]
    by_cases h5 : fenceCloseLine l3 = true
    · rw [if_pos h5, ite_self]
      decide
    · rw [if_neg h5]
      by_cases h6 : fenceTicksLine l3 = true
      · rw [if_pos h6]
        decide
      · rw [if_neg h6]
        rw [Bool.not_eq_true] at h4 h5 h6
        simp [fenceAnyLine, h4, h5, h6]

theorem linesOK_filterThinkingTags (s : List Char) :
    linesOK (filterThinkingTags s) := by
  unfold filterThinkingTags
  exact linesOK_trimWS _ (linesOK_fencePasses _)

theorem fencePasses_fix (t : List Char) (h : linesOK t) :
    fencePass fenceTicksLine (fencePass fenceCloseLine (fencePass fenceOpenLine t)) = t := by
  have h4 : fencePass fenceOpenLine t = t :=
    fencePass_id _ _ (fun l hl => by
      have := h l hl
      simp only [fenceAnyLine, Bool.or_eq_false_iff] at this
      exact this.1.1)
  rw [h4]
  have h5 : fencePass fenceCloseLine t = t :=
    fencePass_id _ _ (fun l hl => by
      have := h l hl
      simp only [fenceAnyLine, Bool.or_eq_false_iff] at this
      exact this.1.2)
  rw [h5]
  exact fencePass_id _ _ (fun l hl => by
    have := h l hl
    simp only [fenceAnyLine, Bool.or_eq_false_iff] at this
    exact this.2)

/-- C1 counterexample: on `"a</thinking>b</thinking>c"` — two unmatched
closing thinking tags — the sanitizer is not idempotent: the anchored
preamble regex fires only once per application, so the first pass
yields `"b</thinking>c"` and the second `"c"`. -/
theorem c1_counterexample :
    filterThinkingTags (filterThinkingTags (("a</thinking>b</thinking>c").toList)) ≠
      filterThinkingTags (("a</thinking>b</thinking>c").toList) := by
  decide

/-- C1 (amended): the sanitizer is idempotent on every string whose
sanitized output retains no thinking-tag fragment — no case-insensitive
occurrence of `<thinking` and none of `</thinking>`.  (The
counterexample shows idempotence fails when a closing-tag remnant
survives the first pass.) -/
theorem c1_sanitizer_idempotent_amended (s : List Char)
    (hopen : ciOccurs openThinking (filterThinkingTags s) = false)
    (hclose : ciOccurs closeThinking (filterThinkingTags s) = false) :
    filterThinkingTags (filterThinkingTags s) = filterThinkingTags s := by
  set t := filterThinkingTags s with ht
  have h1 : removeSpans t = t := removeSpans_id t hopen
  have h2 : dropPreamble t = t := dropPreamble_id t hclose
  have h3 : removeOpenTags t = t := removeOpenTags_id t hopen
  have hOK : linesOK t := by rw [ht]; exact linesOK_filterThinkingTags s
  show trimWS (fencePass fenceTicksLine (fencePass fenceCloseLine (fencePass fenceOpenLine
    (removeOpenTags (dropPreamble (removeSpans t)))))) = t
  rw [h1, h2, h3, fencePasses_fix t hOK, ht]
  exact trimWS_idem _

/-- Witness for C1 (amended): the spec §8 example input, whose
sanitized output `const x=1;` has no thinking-tag fragment. -/
theorem c1_witness :
    (ciOccurs openThinking
        (filterThinkingTags (("<thinking>plan</thinking>```tsx\nconst x=1;\n```").toList)) =
          false ∧
      ciOccurs closeThinking
        (filterThinkingTags (("<thinking>plan</thinking>```tsx\nconst x=1;\n```").toList)) =
          false) ∧
      filterThinkingTags (filterThinkingTags
          (("<thinking>plan</thinking>```tsx\nconst x=1;\n```").toList)) =
        filterThinkingTags (("<thinking>plan</thinking>```tsx\nconst x=1;\n```").toList) :=
  ⟨⟨by decide, by decide⟩,
    c1_sanitizer_idempotent_amended (("<thinking>plan</thinking>```tsx\nconst x=1;\n```").toList)
      (by decide) (by decide)⟩

/-- C9 counterexample: a successful generation whose raw model text is
only a thinking block yields a 200 response with `success: true` and an
empty `code`; and a raw text with unmatched closing tags yields a
`code` still containing `</thinking>` after sanitization. -/
theorem c9_counterexample :
    (generateSuccessResponse (("<thinking>x</thinking>").toList)).success = true ∧
      (generateSuccessResponse (("<thinking>x</thinking>").toList)).code = [] ∧
      ciOccurs closeThinking
        (generateSuccessResponse (("a</thinking>b</thinking>c").toList)).code = true := by
  refine ⟨rfl, by decide, by decide⟩

set_option maxHeartbeats 2000000 in
/-- C9 (amended): every successful generation response carries
status 200, `success: true`, and a `code` field equal to the sanitized
raw model text; that code contains no markdown fence delimiter line.
It may, however, be empty, and thinking-tag remnants can survive
sanitization. -/
theorem c9_success_sanitized_amended (raw : List Char) :
    (generateSuccessResponse raw).status = 200 ∧
      (generateSuccessResponse raw).success = true ∧
      (generateSuccessResponse raw).code = filterThinkingTags raw ∧
      ∀ l ∈ splitLines (generateSuccessResponse raw).code, fenceAnyLine l = false := by
  refine ⟨rfl, rfl, rfl, ?_⟩
  intro l hl
  exact linesOK_filterThinkingTags raw l hl

end Forge
